import Mathlib

/-!
# Sound-trigger HAL device coordinator

A shallow embedding of `sthal-qal/SoundTriggerDevice.cpp`: the process-wide
device singleton, its reference-counted open/close, the audio-HAL binding with
its version check, the properties query, and the session registry
(`session_list_`) with handle assignment from `session_id_`.

Conventions of the embedding

* C `int` values are integers; every arithmetic update of a stored `int`
  (`stdev_ref_cnt`, `session_id_`) is reduced with `wrap32`.
* A `SoundTriggerSession*` is modelled by the object it designates: the address
  returned by `new` together with the members fixed by the constructor.  Two
  pointers are equal exactly when they designate the same object.
* Results of calls that leave this file (`access`, `dlopen`, `dlsym`,
  `qal_get_param`, the methods of `SoundTriggerSession`, `operator new`) are
  inputs of the embedded function.
* An out-parameter is returned as an `Option`: `none` means it was not written.
-/

namespace STHal

/-! ## Machine integers and status codes -/

/-- Two's-complement reduction of an integer to the range of a 32-bit `int`. -/
def wrap32 (x : Int) : Int := (x + 2147483648) % 4294967296 - 2147483648

/-- The errno value `EINVAL` of `<errno.h>` on Linux. -/
def EINVAL : Int := 22

/-- The errno value `ENOENT` of `<errno.h>` on Linux. -/
def ENOENT : Int := 2

/-- The errno value `ENODEV` of `<errno.h>` on Linux. -/
def ENODEV : Int := 19

/-- The call `android_atomic_inc(addr)`: yields the value stored before the
call and the value stored after it (the old value plus one, 32-bit). -/
def android_atomic_inc (v : Int) : Int × Int := (v, wrap32 (v + 1))

/-! ## Header constants that are not part of the sources -/

/-- Constants and macros of headers outside the two source files
(`SoundTriggerPropIntf.h`, `hardware/sound_trigger.h`, `QalDefs.h`,
`system/audio.h`), taken as parameters. -/
structure Platform where
  /-- The interface name `stdev_open` compares its `name` argument with. -/
  SOUND_TRIGGER_HARDWARE_INTERFACE : String
  /-- The macro extracting the major component of an API version. -/
  MAJOR_VERSION : Int → Int
  /-- The API version of STHAL itself (`sthal_prop_api_version`). -/
  STHAL_PROP_API_CURRENT_VERSION : Int
  /-- The capture device recorded in `available_devices_`. -/
  AUDIO_DEVICE_IN_BUILTIN_MIC : Int
  /-- The value of `sizeof(struct qal_st_properties)`. -/
  sizeof_qal_st_properties : Nat
  /-- The value of `sizeof(struct sound_trigger_properties)`. -/
  sizeof_sound_trigger_properties : Nat

/-! ## Data model -/

/-- Modelled from the spec: the constructor `SoundTriggerSession(handle, callback)`
and the accessor `GetSoundModelHandle` live in `SoundTriggerSession.cpp`, which is
not among the sources; only the class declaration is.  Following the spec
("`handle`: assigned at creation, immutable for session lifetime"), a session
object carries the handle and callback it was constructed with; `addr` is the
address `new` returned for it. -/
structure SoundTriggerSession where
  addr : Nat
  sm_handle_ : Int
  hal_callback_ : Option Nat
  deriving DecidableEq

/-- Modelled from the spec: `SoundTriggerSession::GetSoundModelHandle`
(definition in the absent `SoundTriggerSession.cpp`) returns the handle the
session was created with. -/
def SoundTriggerSession.GetSoundModelHandle (x : SoundTriggerSession) : Int :=
  x.sm_handle_

/-- Status returned by each method of `SoundTriggerSession` when it is invoked
on a given session; the method bodies are outside the sources. -/
structure SessionMethods where
  LoadSoundModel : SoundTriggerSession → Int
  UnloadSoundModel : SoundTriggerSession → Int
  StartRecognition : SoundTriggerSession → Int
  StopRecognition : SoundTriggerSession → Int

/-- A device pointer handed to an entry point: null, the address of the
singleton's `device_` object (equivalently of its first member `common`), or any
other address. -/
inductive DevicePtr where
  | null
  | device
  | other (a : Nat)
  deriving DecidableEq

/-- The static state of the translation unit: `stdev_ref_cnt`, whether the
singleton (`stdev_`, `device_`) has been created, and the members of the
singleton.  Before creation the scalar members stand for whatever the
constructor will leave in them. -/
structure HalState where
  stdev_ref_cnt : Int
  instance_created : Bool
  device_methods_set : Bool
  available_devices_ : Int
  session_id_ : Int
  session_list_ : List SoundTriggerSession
  ahal_handle_ : Option Nat
  ahal_callback_ : Option Nat
  sthal_prop_api_version_ : Int
  conc_capture_supported_ : Bool
  deriving DecidableEq

/-- What the dynamic loader and the file system answer during `LoadAudioHal`. -/
structure AhalEnv where
  /-- Whether `access(path, R_OK)` succeeds for the first library path. -/
  access_path1 : Bool
  /-- Whether `access(path, R_OK)` succeeds for the second library path. -/
  access_path2 : Bool
  /-- Result of `dlopen`; `none` is a null handle. -/
  dlopen_result : Option Nat
  /-- Result of `dlsym(.., "audio_hw_call_back")`; `none` is null. -/
  sym_audio_hw_call_back : Option Nat
  /-- Result of `dlsym(.., "sthal_prop_api_version")`: the `int` it points to. -/
  sym_sthal_prop_api_version : Option Int

/-- What `qal_get_param(QAL_PARAM_ID_GET_SOUND_TRIGGER_PROPERTIES, ..)` answers:
its status, the bytes of the returned structure (`none` is null) and `size`. -/
structure QalReply where
  status : Int
  qstp : Option (List Nat)
  size : Nat

/-! ## Singleton access -/

/-- The call `SoundTriggerDevice::GetInstance()`: creates the singleton on
first use (its vector member starts empty). -/
def GetInstance (s : HalState) : HalState :=
  if s.instance_created then s
  else { s with instance_created := true, session_list_ := [] }

/-- The overloads `SoundTriggerDevice::GetInstance(device)`: the singleton
when `device` is the address of `device_`, null otherwise; `true` means a
non-null result. -/
def GetInstance_dev (s : HalState) (dev : DevicePtr) : Bool :=
  s.instance_created && decide (dev = DevicePtr.device)

/-! ## Initialisation -/

/-- The method `SoundTriggerDevice::LoadAudioHal`. -/
def LoadAudioHal (P : Platform) (e : AhalEnv) (s : HalState) : Int × HalState :=
  let status : Int := 0
  if !e.access_path1 && !e.access_path2 then
    (-ENOENT, { s with ahal_handle_ := none })
  else
    match e.dlopen_result with
    | none => (-ENODEV, { s with ahal_handle_ := none })
    | some h =>
      match e.sym_audio_hw_call_back with
      | none => (-ENODEV, { s with ahal_callback_ := none, ahal_handle_ := none })
      | some cb =>
        match e.sym_sthal_prop_api_version with
        | none =>
          (0, { s with ahal_handle_ := some h, ahal_callback_ := some cb,
                       sthal_prop_api_version_ := 0 })
        | some v =>
          if P.MAJOR_VERSION v ≠ P.MAJOR_VERSION P.STHAL_PROP_API_CURRENT_VERSION then
            (status, { s with ahal_callback_ := some cb, sthal_prop_api_version_ := v,
                              ahal_handle_ := none })
          else
            (status, { s with ahal_handle_ := some h, ahal_callback_ := some cb,
                              sthal_prop_api_version_ := v })

/-- The method `SoundTriggerDevice::PlatformInit`. -/
def PlatformInit (s : HalState) : Int × HalState :=
  (0, { s with conc_capture_supported_ := false })

/-- The method `SoundTriggerDevice::Init`: status, the value written to
`*device`, and the new state. -/
def Init (P : Platform) (e : AhalEnv) (s : HalState) :
    Int × Option DevicePtr × HalState :=
  if s.stdev_ref_cnt ≠ 0 then
    (0, some DevicePtr.device, { s with stdev_ref_cnt := wrap32 (s.stdev_ref_cnt + 1) })
  else
    let r1 := LoadAudioHal P e s
    if r1.1 ≠ 0 then (r1.1, none, r1.2)
    else
      let r2 := PlatformInit r1.2
      if r2.1 ≠ 0 then (r2.1, none, r2.2)
      else
        (r2.1, some DevicePtr.device,
          { r2.2 with device_methods_set := true,
                      available_devices_ := P.AUDIO_DEVICE_IN_BUILTIN_MIC,
                      session_id_ := 1,
                      stdev_ref_cnt := wrap32 (r2.2.stdev_ref_cnt + 1) })

/-- The entry point `stdev_open`. -/
def stdev_open (P : Platform) (name : String) (e : AhalEnv) (s : HalState) :
    Int × Option DevicePtr × HalState :=
  if name ≠ P.SOUND_TRIGGER_HARDWARE_INTERFACE then (-EINVAL, none, s)
  else
    let s1 := GetInstance s
    if !s1.instance_created then (0, none, s1)
    else Init P e s1

/-- The entry point `stdev_close`. -/
def stdev_close (dev : DevicePtr) (s : HalState) : Int × HalState :=
  if !GetInstance_dev s dev then (-EINVAL, s)
  else (0, { s with stdev_ref_cnt := wrap32 (s.stdev_ref_cnt - 1) })

/-! ## Properties query -/

/-- The entry point `stdev_get_properties`: status and the contents of the
caller's buffer afterwards.  `properties` is the caller's buffer (`none` is a
null pointer). -/
def stdev_get_properties (P : Platform) (dev : DevicePtr)
    (properties : Option (List Nat)) (q : QalReply) (s : HalState) :
    Int × Option (List Nat) :=
  match properties with
  | none => (-EINVAL, none)
  | some buf =>
    if dev = DevicePtr.null then (-EINVAL, some buf)
    else if !GetInstance_dev s dev then (-EINVAL, some buf)
    else
      if q.status ≠ 0 ∨ q.qstp = none ∨ q.size < P.sizeof_qal_st_properties then
        (q.status, some buf)
      else
        (q.status, some ((q.qstp.getD []).take P.sizeof_sound_trigger_properties
                          ++ buf.drop P.sizeof_sound_trigger_properties))

/-! ## Session registry -/

/-- The method `SoundTriggerDevice::GetSession`: the first registered session
whose handle equals `handle`, or null. -/
def GetSession (s : HalState) (handle : Int) : Option SoundTriggerSession :=
  s.session_list_.find? (fun x => decide (handle = x.GetSoundModelHandle))

/-- The method `SoundTriggerDevice::RegisterSession`. -/
def RegisterSession (session : SoundTriggerSession) (s : HalState) : Int × HalState :=
  (0, { s with session_list_ := s.session_list_ ++ [session] })

/-- The method `SoundTriggerDevice::DeregisterSession`: erases the first
occurrence of the pointer, or fails with `-ENOENT`. -/
def DeregisterSession (session : SoundTriggerSession) (s : HalState) : Int × HalState :=
  if session ∈ s.session_list_ then
    (0, { s with session_list_ := s.session_list_.erase session })
  else (-ENOENT, s)

/-- The entry point `stdev_load_sound_model`: status, the value written to
`*handle`, and the new state.  `new_addr` is the address `new` returns. -/
def stdev_load_sound_model (m : SessionMethods) (new_addr : Nat) (dev : DevicePtr)
    (s : HalState) : Int × Option Int × HalState :=
  if !GetInstance_dev s dev then (-EINVAL, none, s)
  else
    let a := android_atomic_inc s.session_id_
    let s1 := { s with session_id_ := a.2 }
    let st_session : SoundTriggerSession := ⟨new_addr, a.1, s1.ahal_callback_⟩
    let r := RegisterSession st_session s1
    if r.1 ≠ 0 then (r.1, some a.1, r.2)
    else (m.LoadSoundModel st_session, some a.1, r.2)

/-- The entry point `stdev_unload_sound_model`. -/
def stdev_unload_sound_model (m : SessionMethods) (dev : DevicePtr) (handle : Int)
    (s : HalState) : Int × HalState :=
  if !GetInstance_dev s dev then (-EINVAL, s)
  else
    match GetSession s handle with
    | none => (-EINVAL, s)
    | some st_session =>
      if m.UnloadSoundModel st_session ≠ 0 then (m.UnloadSoundModel st_session, s)
      else DeregisterSession st_session s

/-- The entry point `stdev_start_recognition`. -/
def stdev_start_recognition (m : SessionMethods) (dev : DevicePtr) (sound_model_handle : Int)
    (s : HalState) : Int × HalState :=
  if !GetInstance_dev s dev then (-EINVAL, s)
  else
    match GetSession s sound_model_handle with
    | none => (-EINVAL, s)
    | some st_session => (m.StartRecognition st_session, s)

/-- The entry point `stdev_stop_recognition`. -/
def stdev_stop_recognition (m : SessionMethods) (dev : DevicePtr) (sound_model_handle : Int)
    (s : HalState) : Int × HalState :=
  if !GetInstance_dev s dev then (-EINVAL, s)
  else
    match GetSession s sound_model_handle with
    | none => (-EINVAL, s)
    | some st_session => (m.StopRecognition st_session, s)

/-! ## Call sequences -/

/-- One call of the device control surface, with the answers of the outside
world it will receive. -/
inductive Call where
  | stdev_open (name : String) (e : AhalEnv)
  | stdev_close (dev : DevicePtr)
  | stdev_get_properties (dev : DevicePtr) (properties : Option (List Nat)) (q : QalReply)
  | stdev_load_sound_model (m : SessionMethods) (new_addr : Nat) (dev : DevicePtr)
  | stdev_unload_sound_model (m : SessionMethods) (dev : DevicePtr) (handle : Int)
  | stdev_start_recognition (m : SessionMethods) (dev : DevicePtr) (handle : Int)
  | stdev_stop_recognition (m : SessionMethods) (dev : DevicePtr) (handle : Int)

/-- The state after one call. -/
def Call.run (P : Platform) (c : Call) (s : HalState) : HalState :=
  match c with
  | Call.stdev_open name e => (STHal.stdev_open P name e s).2.2
  | Call.stdev_close dev => (STHal.stdev_close dev s).2
  | Call.stdev_get_properties _ _ _ => s
  | Call.stdev_load_sound_model m a dev => (STHal.stdev_load_sound_model m a dev s).2.2
  | Call.stdev_unload_sound_model m dev h => (STHal.stdev_unload_sound_model m dev h s).2
  | Call.stdev_start_recognition m dev h => (STHal.stdev_start_recognition m dev h s).2
  | Call.stdev_stop_recognition m dev h => (STHal.stdev_stop_recognition m dev h s).2

/-- The value a call writes to `*handle`, if it writes one: only
`stdev_load_sound_model` does, and only on a valid device. -/
def Call.written (c : Call) (s : HalState) : Option Int :=
  match c with
  | Call.stdev_load_sound_model m a dev => (STHal.stdev_load_sound_model m a dev s).2.1
  | _ => none

/-- Whether the call is a `stdev_open` that gets past the name check and finds
the reference count at zero, so that `Init` takes its initialisation path. -/
def Call.reinitialises (P : Platform) (c : Call) (s : HalState) : Bool :=
  match c with
  | Call.stdev_open name _ =>
    decide (name = P.SOUND_TRIGGER_HARDWARE_INTERFACE) && decide (s.stdev_ref_cnt = 0)
  | _ => false

/-- Whether no call of the sequence, run from `s`, re-initialises the device. -/
def no_reinit (P : Platform) : List Call → HalState → Bool
  | [], _ => true
  | c :: cs, s => !c.reinitialises P s && no_reinit P cs (c.run P s)

/-- The handles written by the calls of a sequence run from `s`, in call order. -/
def written_by (P : Platform) : List Call → HalState → List Int
  | [], _ => []
  | c :: cs, s => (c.written s).toList ++ written_by P cs (c.run P s)

/-- Whether the call is a `stdev_load_sound_model` issued on the pointer `dev`. -/
def Call.is_load_on (dev : DevicePtr) : Call → Bool
  | Call.stdev_load_sound_model _ _ d => decide (d = dev)
  | _ => false

/-- The number of `stdev_load_sound_model` calls on `dev` in a call sequence. -/
def loads_on (dev : DevicePtr) (cs : List Call) : Nat :=
  cs.countP (Call.is_load_on dev)

/-- What every call of a sequence run from `s` writes to `*handle`, one entry
per call in call order (`none`: the call writes no handle). -/
def call_writes (P : Platform) : List Call → HalState → List (Option Int)
  | [], _ => []
  | c :: cs, s => c.written s :: call_writes P cs (c.run P s)

/-- The writes the handle rule asks for, one entry per call: counting from
`k`, the first load on `dev` writes `k`, the next one `k + 1`, and so on; a
call that is not a load on `dev` writes nothing. -/
def expected_writes (dev : DevicePtr) : List Call → Int → List (Option Int)
  | [], _ => []
  | c :: cs, k =>
    if c.is_load_on dev then some k :: expected_writes dev cs (k + 1)
    else none :: expected_writes dev cs k

/-- The state after a sequence of calls, executed one after the other. -/
def runCalls (P : Platform) (cs : List Call) (s : HalState) : HalState :=
  cs.foldl (fun st c => c.run P st) s

/-- The handles of the registered sessions, in registry order. -/
def registered_handles (s : HalState) : List Int :=
  s.session_list_.map SoundTriggerSession.GetSoundModelHandle

/-- A sequence of `stdev_open` calls, each with its `name` argument and the
answers of the loader: the (status, written `*device`) pairs in call order, and
the final state. -/
def open_calls (P : Platform) :
    List (String × AhalEnv) → HalState → List (Int × Option DevicePtr) × HalState
  | [], s => ([], s)
  | c :: cs, s =>
    let r := stdev_open P c.1 c.2 s
    let rest := open_calls P cs r.2.2
    ((r.1, r.2.1) :: rest.1, rest.2)

/-- The statuses of `k` consecutive `stdev_close` calls on `dev`, and the final
state. -/
def close_calls (dev : DevicePtr) : Nat → HalState → List Int × HalState
  | 0, s => ([], s)
  | k + 1, s =>
    let r := stdev_close dev s
    let rest := close_calls dev k r.2
    (r.1 :: rest.1, rest.2)

/-! ## Concurrent loads

Several threads execute `stdev_load_sound_model` at once.  The calls touch
shared state in two places only: `android_atomic_inc` on `session_id_`, which
is atomic, and the `push_back` in `RegisterSession`, which runs under `mutex_`.
An execution is therefore an interleaving of these two steps per thread. -/

/-- Where one thread stands inside `stdev_load_sound_model`: before the
increment (`entry`), holding the value written to `*handle` but not yet
registered (`assigned`), or back from the call with its status and the handle
it wrote (`returned`). -/
inductive LoadThread where
  | entry
  | assigned (handle : Int)
  | returned (status : Int) (handle : Option Int)
  deriving DecidableEq

/-- The handle a thread has written to `*handle` so far. -/
def LoadThread.written_handle : LoadThread → Option Int
  | LoadThread.entry => none
  | LoadThread.assigned h => some h
  | LoadThread.returned _ h => h

/-- The handle of the session a thread has pushed onto `session_list_`. -/
def LoadThread.registered_handle : LoadThread → Option Int
  | LoadThread.entry => none
  | LoadThread.assigned _ => none
  | LoadThread.returned _ h => h

/-- Whether the thread is back from the call. -/
def LoadThread.is_returned : LoadThread → Bool
  | LoadThread.returned _ _ => true
  | _ => false

/-- Number of atomic steps a thread has behind it (at most two). -/
def LoadThread.progress : LoadThread → Nat
  | LoadThread.entry => 0
  | LoadThread.assigned _ => 1
  | LoadThread.returned _ _ => 2

/-- One atomic step of a thread inside `stdev_load_sound_model`: from `entry`
the instance check and `android_atomic_inc`; from `assigned` the construction
of the session, `RegisterSession` and the session-level load, after which the
call returns.  A returned thread does nothing. -/
def load_thread_step (dev : DevicePtr) (inp : SessionMethods × Nat) (s : HalState) :
    LoadThread → HalState × LoadThread
  | LoadThread.entry =>
    if !GetInstance_dev s dev then (s, LoadThread.returned (-EINVAL) none)
    else
      let a := android_atomic_inc s.session_id_
      ({ s with session_id_ := a.2 }, LoadThread.assigned a.1)
  | LoadThread.assigned h =>
    let st_session : SoundTriggerSession := ⟨inp.2, h, s.ahal_callback_⟩
    let r := RegisterSession st_session s
    if r.1 ≠ 0 then (r.2, LoadThread.returned r.1 (some h))
    else (r.2, LoadThread.returned (inp.1.LoadSoundModel st_session) (some h))
  | LoadThread.returned st h => (s, LoadThread.returned st h)

/-- The shared state together with the position of every thread. -/
structure LoadRace where
  dev_state : HalState
  threads : List LoadThread

/-- Thread `t` takes its next atomic step; `inputs` gives every thread its
session behaviour and allocation address. -/
def race_step (dev : DevicePtr) (inputs : List (SessionMethods × Nat)) (c : LoadRace)
    (t : Nat) : LoadRace :=
  match c.threads[t]?, inputs[t]? with
  | some th, some inp =>
    ⟨(load_thread_step dev inp c.dev_state th).1,
      c.threads.set t (load_thread_step dev inp c.dev_state th).2⟩
  | _, _ => c

/-- An interleaving: the threads step in the order the schedule names them. -/
def race_run (dev : DevicePtr) (inputs : List (SessionMethods × Nat)) (sched : List Nat)
    (c : LoadRace) : LoadRace :=
  sched.foldl (race_step dev inputs) c

/-- All threads about to enter `stdev_load_sound_model` on state `s`. -/
def race_start (inputs : List (SessionMethods × Nat)) (s : HalState) : LoadRace :=
  ⟨s, List.replicate inputs.length LoadThread.entry⟩

/-- The handles written so far, in thread order. -/
def written_handles (c : LoadRace) : List Int :=
  c.threads.filterMap LoadThread.written_handle

/-- The handles of the sessions pushed so far, in thread order. -/
def pushed_handles (c : LoadRace) : List Int :=
  c.threads.filterMap LoadThread.registered_handle

/-- The progress of thread `t` (0 for an index that names no thread). -/
def thread_progress (c : LoadRace) (t : Nat) : Nat :=
  match c.threads[t]? with
  | some th => th.progress
  | none => 0

/-- The handle the `i`-th increment hands out when the counter started at `c0`. -/
def nth_handle (c0 : Int) (i : Nat) : Int := wrap32 (c0 + (i : Int))

/-- The facts that hold at every point of an interleaving started with the
counter at `c0`: the device stays valid, the counter tells how many handles
were handed out, the handles written so far are the first values handed out
(in some order), the registry holds exactly the pushed sessions, and a
returned thread has written its handle. -/
def RaceInv (c0 : Int) (dev : DevicePtr) (c : LoadRace) : Prop :=
  GetInstance_dev c.dev_state dev = true ∧
  c.dev_state.session_id_ = nth_handle c0 (written_handles c).length ∧
  (written_handles c).Perm ((List.range (written_handles c).length).map (nth_handle c0)) ∧
  (registered_handles c.dev_state).Perm (pushed_handles c) ∧
  (∀ th ∈ c.threads, th.is_returned = true → th.written_handle ≠ none)

/-! ## Concrete inputs used for evaluation -/

/-- A concrete choice of the header constants (major version in bits 8 to 15,
API version 1.0), used where the code is evaluated on explicit inputs. -/
def samplePlatform : Platform where
  SOUND_TRIGGER_HARDWARE_INTERFACE := "sound_trigger_hw_if"
  MAJOR_VERSION := fun v => (v / 256) % 256
  STHAL_PROP_API_CURRENT_VERSION := 256
  AUDIO_DEVICE_IN_BUILTIN_MIC := 2147483652
  sizeof_qal_st_properties := 8
  sizeof_sound_trigger_properties := 4

/-- The state of a process in which `stdev_open` has never been called. -/
def neverOpened : HalState where
  stdev_ref_cnt := 0
  instance_created := false
  device_methods_set := false
  available_devices_ := 0
  session_id_ := 0
  session_list_ := []
  ahal_handle_ := none
  ahal_callback_ := none
  sthal_prop_api_version_ := 0
  conc_capture_supported_ := false

/-- An audio HAL library that is found, opens, exports both symbols and
reports API version 1.0. -/
def ahalCompatible : AhalEnv where
  access_path1 := true
  access_path2 := false
  dlopen_result := some 1
  sym_audio_hw_call_back := some 2
  sym_sthal_prop_api_version := some 256

/-- An audio HAL library that is found, opens, exports both symbols and
reports API version 2.0, whose major component differs from STHAL's. -/
def ahalMajorMismatch : AhalEnv where
  access_path1 := true
  access_path2 := false
  dlopen_result := some 1
  sym_audio_hw_call_back := some 2
  sym_sthal_prop_api_version := some 512

/-- Session methods that all report success. -/
def sessionsSucceed : SessionMethods where
  LoadSoundModel := fun _ => 0
  UnloadSoundModel := fun _ => 0
  StartRecognition := fun _ => 0
  StopRecognition := fun _ => 0

/-- The state right after the first, successful `stdev_open`. -/
def openedOnce : HalState :=
  (stdev_open samplePlatform "sound_trigger_hw_if" ahalCompatible neverOpened).2.2

/-- The call sequence open, load, close, open, load on the same device, every
outside call succeeding and `new` returning two different addresses. -/
def reopenTrace : List Call :=
  [Call.stdev_open "sound_trigger_hw_if" ahalCompatible,
   Call.stdev_load_sound_model sessionsSucceed 0 DevicePtr.device,
   Call.stdev_close DevicePtr.device,
   Call.stdev_open "sound_trigger_hw_if" ahalCompatible,
   Call.stdev_load_sound_model sessionsSucceed 1 DevicePtr.device]

/-- A reply of `qal_get_param` that reports success but hands back no structure. -/
def qalNullReply : QalReply := ⟨0, none, 0⟩

/-- A reply of `qal_get_param` that reports success with a structure of three
bytes, shorter than `sizeof(struct qal_st_properties)` of `samplePlatform`. -/
def qalShortReply : QalReply := ⟨0, some [1, 2, 3], 3⟩

/-- The same successful open request, issued `n` times. -/
def sameOpens (n : Nat) : List (String × AhalEnv) :=
  List.replicate n ("sound_trigger_hw_if", ahalCompatible)

/-- A valid device whose registry holds three sessions with handles 1, 2, 3. -/
def threeSessions : HalState :=
  { openedOnce with
      session_id_ := 4
      session_list_ := [⟨10, 1, some 2⟩, ⟨11, 2, some 2⟩, ⟨12, 3, some 2⟩] }

/-- Session methods whose `LoadSoundModel` and `UnloadSoundModel` fail with
status `-5`. -/
def sessionsFail : SessionMethods where
  LoadSoundModel := fun _ => -5
  UnloadSoundModel := fun _ => -5
  StartRecognition := fun _ => 0
  StopRecognition := fun _ => 0

/-- Inputs for `n` threads: every session-level load succeeds and thread `i`
gets allocation address `i`. -/
def raceInputs (n : Nat) : List (SessionMethods × Nat) :=
  (List.range n).map (fun i => (sessionsSucceed, i))

/-- The schedule in which all `n` threads first take their increment, in
order, and then all register, in order. -/
def twoRounds (n : Nat) : List Nat := List.range n ++ List.range n

/-- A call sequence mixing loads with other calls: a load, a load that fails at
session level, an unload of handle 1, a second open, a third load. -/
def loadsTrace : List Call :=
  [Call.stdev_load_sound_model sessionsSucceed 0 DevicePtr.device,
   Call.stdev_load_sound_model sessionsFail 1 DevicePtr.device,
   Call.stdev_unload_sound_model sessionsSucceed DevicePtr.device 1,
   Call.stdev_open "sound_trigger_hw_if" ahalCompatible,
   Call.stdev_load_sound_model sessionsSucceed 2 DevicePtr.device]

/-- The call sequence open, close, close on the same device: the second close
is issued after the count has already returned to 0. -/
def doubleCloseTrace : List Call :=
  [Call.stdev_open "sound_trigger_hw_if" ahalCompatible,
   Call.stdev_close DevicePtr.device,
   Call.stdev_close DevicePtr.device]

/-- A system on which the audio HAL library is at neither path. -/
def ahalMissing : AhalEnv where
  access_path1 := false
  access_path2 := false
  dlopen_result := none
  sym_audio_hw_call_back := none
  sym_sthal_prop_api_version := none

/-! ## Theorems -/

/-! ### Arithmetic of 32-bit integers -/

theorem wrap32_of_range (x : Int) (h1 : -2147483648 ≤ x) (h2 : x < 2147483648) :
    wrap32 x = x := by
  unfold wrap32; omega

theorem wrap32_wrap32_add (a b : Int) : wrap32 (wrap32 a + b) = wrap32 (a + b) := by
  unfold wrap32; omega

theorem wrap32_idem (a : Int) : wrap32 (wrap32 a) = wrap32 a := by
  unfold wrap32; omega

/-! ### The first open -/

theorem GetInstance_created (s : HalState) : (GetInstance s).instance_created = true := by
  unfold GetInstance; split <;> simp_all

theorem GetInstance_ref_cnt (s : HalState) :
    (GetInstance s).stdev_ref_cnt = s.stdev_ref_cnt := by
  unfold GetInstance; split <;> simp_all

theorem LoadAudioHal_frame (P : Platform) (e : AhalEnv) (s : HalState) :
    (LoadAudioHal P e s).2.instance_created = s.instance_created ∧
    (LoadAudioHal P e s).2.stdev_ref_cnt = s.stdev_ref_cnt ∧
    (LoadAudioHal P e s).2.session_list_ = s.session_list_ := by
  unfold LoadAudioHal
  split
  · simp
  · split
    · simp
    · split
      · simp
      · split
        · simp
        · split <;> simp

/-- An open that finds the reference count at zero and reports success has run
the initialisation: it hands out the device, sets `session_id_` to 1 and the
count to 1. -/
theorem stdev_open_first (P : Platform) (name : String) (e : AhalEnv) (s : HalState)
    (h0 : s.stdev_ref_cnt = 0) (hs : (stdev_open P name e s).1 = 0) :
    (stdev_open P name e s).2.1 = some DevicePtr.device ∧
    (stdev_open P name e s).2.2.instance_created = true ∧
    (stdev_open P name e s).2.2.session_id_ = 1 ∧
    (stdev_open P name e s).2.2.stdev_ref_cnt = 1 := by
  have hc := GetInstance_created s
  have hr := GetInstance_ref_cnt s
  have hf := LoadAudioHal_frame P e (GetInstance s)
  unfold stdev_open at hs ⊢
  by_cases hn : name = P.SOUND_TRIGGER_HARDWARE_INTERFACE
  · simp only [hn, ne_eq, not_true_eq_false, if_false, hc, Bool.not_true,
      Bool.false_eq_true] at hs ⊢
    unfold Init at hs ⊢
    simp only [hr, h0, ne_eq, not_true_eq_false, if_false] at hs ⊢
    by_cases hl : (LoadAudioHal P e (GetInstance s)).1 = 0
    · simp [hl, PlatformInit, hf.1, hf.2.1, hc, hr, h0, wrap32]
    · simp [hl] at hs
  · simp [hn, EINVAL] at hs

theorem GetInstance_of_created (s : HalState) (hc : s.instance_created = true) :
    GetInstance s = s := by
  simp [GetInstance, hc]

theorem stdev_open_status_zero_name (P : Platform) (name : String) (e : AhalEnv)
    (s : HalState) (h : (stdev_open P name e s).1 = 0) :
    name = P.SOUND_TRIGGER_HARDWARE_INTERFACE := by
  by_contra hn
  simp [stdev_open, hn, EINVAL] at h

/-- An open that finds a non-zero reference count hands out the existing
device and only advances the count, whatever the loader would answer. -/
theorem stdev_open_existing (P : Platform) (e : AhalEnv) (s : HalState)
    (hc : s.instance_created = true) (hr : s.stdev_ref_cnt ≠ 0) :
    stdev_open P P.SOUND_TRIGGER_HARDWARE_INTERFACE e s
      = (0, some DevicePtr.device,
          { s with stdev_ref_cnt := wrap32 (s.stdev_ref_cnt + 1) }) := by
  simp [stdev_open, GetInstance_of_created s hc, hc, Init, hr]

/-! ### Handle assignment -/

theorem nth_handle_succ (c0 : Int) (n : Nat) :
    wrap32 (nth_handle c0 n + 1) = nth_handle c0 (n + 1) := by
  unfold nth_handle
  rw [wrap32_wrap32_add]
  congr 1
  push_cast; ring

theorem nth_handle_shift (c0 : Int) (i : Nat) :
    nth_handle (wrap32 (c0 + 1)) i = nth_handle c0 (i + 1) := by
  unfold nth_handle
  rw [wrap32_wrap32_add]
  congr 1
  push_cast; ring

theorem nth_handle_injective (c0 : Int) (i j : Nat) (hi : i < 4294967296)
    (hj : j < 4294967296) (h : nth_handle c0 i = nth_handle c0 j) : i = j := by
  unfold nth_handle wrap32 at h
  omega

/-- The effect of `stdev_load_sound_model` on a valid device: the handle is
the old value of `session_id_`, the new session is appended, and the status is
that of the session-level load. -/
theorem stdev_load_sound_model_valid (m : SessionMethods) (a : Nat) (dev : DevicePtr)
    (s : HalState) (hv : GetInstance_dev s dev = true) :
    stdev_load_sound_model m a dev s
      = (m.LoadSoundModel ⟨a, s.session_id_, s.ahal_callback_⟩, some s.session_id_,
          { s with session_id_ := wrap32 (s.session_id_ + 1)
                   session_list_ := s.session_list_ ++ [⟨a, s.session_id_, s.ahal_callback_⟩] }) := by
  simp [stdev_load_sound_model, hv, android_atomic_inc, RegisterSession]

theorem stdev_unload_sound_model_frame (m : SessionMethods) (dev : DevicePtr) (h : Int)
    (s : HalState) :
    (stdev_unload_sound_model m dev h s).2.instance_created = s.instance_created ∧
    (stdev_unload_sound_model m dev h s).2.session_id_ = s.session_id_ := by
  unfold stdev_unload_sound_model
  split
  · exact ⟨rfl, rfl⟩
  · split
    · exact ⟨rfl, rfl⟩
    · split
      · exact ⟨rfl, rfl⟩
      · unfold DeregisterSession
        split <;> exact ⟨rfl, rfl⟩

/-- A call that does not re-initialise keeps the singleton and either leaves
the counter alone and writes no handle, or writes the counter value as the
handle and advances the counter by one (32-bit). -/
theorem call_run_counter (P : Platform) (c : Call) (s : HalState)
    (hc : s.instance_created = true) (hno : c.reinitialises P s = false) :
    (c.run P s).instance_created = true ∧
    ((c.written s = none ∧ (c.run P s).session_id_ = s.session_id_) ∨
     (c.written s = some s.session_id_ ∧
        (c.run P s).session_id_ = wrap32 (s.session_id_ + 1))) := by
  cases c with
  | stdev_open name e =>
    by_cases hn : name = P.SOUND_TRIGGER_HARDWARE_INTERFACE
    · have hr : s.stdev_ref_cnt ≠ 0 := by
        simpa [Call.reinitialises, hn] using hno
      subst hn
      simp [Call.run, Call.written, stdev_open_existing P e s hc hr, hc]
    · simp [Call.run, Call.written, stdev_open, hn, hc]
  | stdev_close dev =>
    by_cases hv : GetInstance_dev s dev = true <;>
      simp [Call.run, Call.written, stdev_close, hv, hc]
  | stdev_get_properties dev properties q => simp [Call.run, Call.written, hc]
  | stdev_load_sound_model m a dev =>
    by_cases hv : GetInstance_dev s dev = true
    · simp [Call.run, Call.written, stdev_load_sound_model_valid m a dev s hv, hc]
    · simp [Call.run, Call.written, stdev_load_sound_model, hv, hc]
  | stdev_unload_sound_model m dev h =>
    have hf := stdev_unload_sound_model_frame m dev h s
    simp [Call.run, Call.written, hf.1, hf.2, hc]
  | stdev_start_recognition m dev h =>
    have hst : (stdev_start_recognition m dev h s).2 = s := by
      unfold stdev_start_recognition
      split
      · rfl
      · split <;> rfl
    simp [Call.run, Call.written, hst, hc]
  | stdev_stop_recognition m dev h =>
    have hst : (stdev_stop_recognition m dev h s).2 = s := by
      unfold stdev_stop_recognition
      split
      · rfl
      · split <;> rfl
    simp [Call.run, Call.written, hst, hc]

/-- Without re-initialisation, the handles written by a call sequence are the
consecutive counter values (32-bit), starting from the current one. -/
theorem written_by_handles (P : Platform) (cs : List Call) :
    ∀ s : HalState, s.instance_created = true → wrap32 s.session_id_ = s.session_id_ →
      no_reinit P cs s = true →
      written_by P cs s
        = (List.range (written_by P cs s).length).map (nth_handle s.session_id_) := by
  induction cs with
  | nil => intro s _ _ _; rfl
  | cons c cs ih =>
    intro s hc hw hno
    simp only [no_reinit, Bool.and_eq_true, Bool.not_eq_true'] at hno
    obtain ⟨hc2, hcase⟩ := call_run_counter P c s hc hno.1
    rcases hcase with ⟨hwr, hid⟩ | ⟨hwr, hid⟩
    · have ih2 := ih (c.run P s) hc2 (by rw [hid]; exact hw) hno.2
      rw [hid] at ih2
      simpa [written_by, hwr] using ih2
    · have ih2 := ih (c.run P s) hc2 (by rw [hid]; exact wrap32_idem _) hno.2
      rw [hid] at ih2
      have hhead : nth_handle s.session_id_ 0 = s.session_id_ := by
        simp [nth_handle, hw]
      simp only [written_by, hwr, Option.toList_some, List.singleton_append, List.length_cons,
        List.range_succ_eq_map, List.map_cons, List.map_map, hhead]
      refine congrArg (List.cons s.session_id_) ?_
      rw [ih2]
      simp only [List.length_map, List.length_range]
      apply List.map_congr_left
      intro i _
      exact nth_handle_shift s.session_id_ i

/-- A load on the device pointer of a created singleton writes the current
counter value and advances the counter by one (32-bit); any other call that
does not re-initialise writes no handle and leaves the counter alone. -/
theorem call_run_by_kind (P : Platform) (c : Call) (s : HalState)
    (hc : s.instance_created = true) (hno : c.reinitialises P s = false) :
    (c.run P s).instance_created = true ∧
    (c.is_load_on DevicePtr.device = true →
      c.written s = some s.session_id_ ∧
      (c.run P s).session_id_ = wrap32 (s.session_id_ + 1)) ∧
    (c.is_load_on DevicePtr.device = false →
      c.written s = none ∧ (c.run P s).session_id_ = s.session_id_) := by
  obtain ⟨hc2, hcase⟩ := call_run_counter P c s hc hno
  refine ⟨hc2, ?_, ?_⟩
  · intro hl
    cases c with
    | stdev_load_sound_model m a dev =>
      have hd : dev = DevicePtr.device := by simpa [Call.is_load_on] using hl
      subst hd
      have hv : GetInstance_dev s DevicePtr.device = true := by simp [GetInstance_dev, hc]
      simp [Call.run, Call.written, stdev_load_sound_model_valid m a _ s hv]
    | stdev_open name e => simp [Call.is_load_on] at hl
    | stdev_close dev => simp [Call.is_load_on] at hl
    | stdev_get_properties dev properties q => simp [Call.is_load_on] at hl
    | stdev_unload_sound_model m dev h => simp [Call.is_load_on] at hl
    | stdev_start_recognition m dev h => simp [Call.is_load_on] at hl
    | stdev_stop_recognition m dev h => simp [Call.is_load_on] at hl
  · intro hl
    cases c with
    | stdev_load_sound_model m a dev =>
      have hd : dev ≠ DevicePtr.device := by simpa [Call.is_load_on] using hl
      have hv : GetInstance_dev s dev = false := by simp [GetInstance_dev, hd]
      simp [Call.run, Call.written, stdev_load_sound_model, hv]
    | stdev_open name e =>
      rcases hcase with h1 | h1
      · exact h1
      · simp [Call.written] at h1
    | stdev_close dev =>
      rcases hcase with h1 | h1
      · exact h1
      · simp [Call.written] at h1
    | stdev_get_properties dev properties q =>
      rcases hcase with h1 | h1
      · exact h1
      · simp [Call.written] at h1
    | stdev_unload_sound_model m dev h =>
      rcases hcase with h1 | h1
      · exact h1
      · simp [Call.written] at h1
    | stdev_start_recognition m dev h =>
      rcases hcase with h1 | h1
      · exact h1
      · simp [Call.written] at h1
    | stdev_stop_recognition m dev h =>
      rcases hcase with h1 | h1
      · exact h1
      · simp [Call.written] at h1

/-- Without re-initialisation and while the counter stays below `2^31`, every
load on the device writes the next counter value and no other call writes a
handle. -/
theorem call_writes_expected (P : Platform) (cs : List Call) :
    ∀ (s : HalState) (k : Int), s.instance_created = true → s.session_id_ = wrap32 k →
      -2147483648 ≤ k → k + (loads_on DevicePtr.device cs : Int) ≤ 2147483648 →
      no_reinit P cs s = true →
      call_writes P cs s = expected_writes DevicePtr.device cs k ∧
      written_by P cs s
        = (List.range (loads_on DevicePtr.device cs)).map (fun i : Nat => k + (i : Int)) := by
  induction cs with
  | nil => intro s k _ _ _ _ _; exact ⟨rfl, rfl⟩
  | cons c cs ih =>
    intro s k hc hid hlo hhi hno
    simp only [no_reinit, Bool.and_eq_true, Bool.not_eq_true'] at hno
    obtain ⟨hc2, hload, hother⟩ := call_run_by_kind P c s hc hno.1
    by_cases hl : c.is_load_on DevicePtr.device = true
    · have hcount : loads_on DevicePtr.device (c :: cs) = loads_on DevicePtr.device cs + 1 := by
        unfold loads_on; exact List.countP_cons_of_pos _ _ hl
      rw [hcount] at hhi ⊢
      push_cast at hhi
      have hk : wrap32 k = k := wrap32_of_range k hlo (by omega)
      obtain ⟨hwr, hnext⟩ := hload hl
      rw [hid, hk] at hwr
      have hnext2 : (c.run P s).session_id_ = wrap32 (k + 1) := by
        rw [hnext, hid, hk]
      obtain ⟨ih1, ih2⟩ := ih (c.run P s) (k + 1) hc2 hnext2 (by omega) (by omega) hno.2
      refine ⟨?_, ?_⟩
      · simp only [call_writes, expected_writes, hl, if_true, hwr, ih1]
      · simp only [written_by, hwr, Option.toList_some, List.singleton_append, ih2,
          List.range_succ_eq_map, List.map_cons, List.map_map]
        refine congrArg₂ List.cons (by simp) ?_
        apply List.map_congr_left
        intro i _
        simp only [Function.comp, Nat.succ_eq_add_one, Nat.cast_add, Nat.cast_one]
        ring
    · have hl2 : c.is_load_on DevicePtr.device = false := by simpa using hl
      have hcount : loads_on DevicePtr.device (c :: cs) = loads_on DevicePtr.device cs := by
        unfold loads_on; exact List.countP_cons_of_neg _ _ hl
      rw [hcount] at hhi ⊢
      obtain ⟨hwr, hnext⟩ := hother hl2
      obtain ⟨ih1, ih2⟩ := ih (c.run P s) k hc2 (by rw [hnext]; exact hid) hlo hhi hno.2
      refine ⟨?_, ?_⟩
      · simp only [call_writes, expected_writes, hl2, Bool.false_eq_true, if_false, hwr, ih1]
      · simp only [written_by, hwr, Option.toList_none, List.nil_append, ih2]

/-- C2: after a successful open that found the reference count at zero (so it
ran the initialisation), take any sequence of calls of the device control
surface in which no later open re-initialises the device, and let `n < 2^31` be
the number of `stdev_load_sound_model` calls in it on the device the open
returned.  Then, call by call, the k-th such load writes handle `k` to
`*handle` and no other call writes a handle, whatever each session-level load
returns; so the handles written are exactly 1, 2, ..., n in call order, and
they are pairwise distinct. -/
theorem C2_load_handles_count_from_one (P : Platform) (name : String) (e : AhalEnv)
    (s0 : HalState) (dev : DevicePtr) (cs : List Call)
    (h0 : s0.stdev_ref_cnt = 0)
    (hopen : (stdev_open P name e s0).1 = 0)
    (hdev : (stdev_open P name e s0).2.1 = some dev)
    (hno : no_reinit P cs (stdev_open P name e s0).2.2 = true)
    (hn : loads_on dev cs < 2 ^ 31) :
    call_writes P cs (stdev_open P name e s0).2.2 = expected_writes dev cs 1 ∧
    written_by P cs (stdev_open P name e s0).2.2
        = (List.range (loads_on dev cs)).map (fun k : Nat => (k : Int) + 1) ∧
    (written_by P cs (stdev_open P name e s0).2.2).length = loads_on dev cs ∧
    (written_by P cs (stdev_open P name e s0).2.2).Nodup := by
  obtain ⟨hd, hc, hid, _⟩ := stdev_open_first P name e s0 h0 hopen
  have hdev2 : dev = DevicePtr.device := by
    rw [hd] at hdev; exact (Option.some.inj hdev).symm
  subst hdev2
  have hn2 : (1 : Int) + (loads_on DevicePtr.device cs : Int) ≤ 2147483648 := by
    have : ((loads_on DevicePtr.device cs : Nat) : Int) < 2 ^ 31 := by exact_mod_cast hn
    norm_num at this; omega
  obtain ⟨k1, k2⟩ := call_writes_expected P cs _ 1 hc (by rw [hid]; decide) (by decide) hn2 hno
  have heq : written_by P cs (stdev_open P name e s0).2.2
      = (List.range (loads_on DevicePtr.device cs)).map (fun k : Nat => (k : Int) + 1) := by
    rw [k2]
    apply List.map_congr_left
    intro i _
    ring
  refine ⟨k1, heq, by rw [heq]; simp, ?_⟩
  rw [heq]
  apply List.Nodup.map _ (List.nodup_range _)
  intro a b hab
  simp only at hab
  omega

/-- Witness for C2: after the first open, a load, a failing load, an unload of
handle 1, a second open and a third load write, call by call, 1, 2, nothing,
nothing and 3. -/
theorem C2_load_handles_count_from_one_witness :
    call_writes samplePlatform loadsTrace
        (stdev_open samplePlatform "sound_trigger_hw_if" ahalCompatible neverOpened).2.2
      = [some 1, some 2, none, none, some 3] ∧
    written_by samplePlatform loadsTrace
        (stdev_open samplePlatform "sound_trigger_hw_if" ahalCompatible neverOpened).2.2
      = [1, 2, 3] ∧
    (written_by samplePlatform loadsTrace
        (stdev_open samplePlatform "sound_trigger_hw_if" ahalCompatible neverOpened).2.2).Nodup := by
  have h := C2_load_handles_count_from_one samplePlatform "sound_trigger_hw_if" ahalCompatible
    neverOpened DevicePtr.device loadsTrace (by decide) (by decide) (by decide) (by decide)
    (by decide)
  exact ⟨h.1, h.2.1, h.2.2.2⟩

/-! ### Re-initialisation and the registry -/

/-- C1: the registry does not keep one session per handle.  After open, load,
close, open, load (all outside calls succeeding) `session_list_` holds two
different session objects that both carry handle 1: the second `Init` resets
`session_id_` to 1 while the session of the first cycle is still registered,
and `GetSession 1` can only ever reach the older one. -/
theorem C1_reopen_registers_duplicate_handle :
    registered_handles (runCalls samplePlatform reopenTrace neverOpened) = [1, 1] ∧
    (runCalls samplePlatform reopenTrace neverOpened).session_list_.map
        SoundTriggerSession.addr = [0, 1] ∧
    ¬ (registered_handles (runCalls samplePlatform reopenTrace neverOpened)).Nodup ∧
    (GetSession (runCalls samplePlatform reopenTrace neverOpened) 1).map
        SoundTriggerSession.addr = some 0 := by
  decide

/-! ### Unknown handles -/

/-- C3 (as stated, refuted): on an opened device with an empty registry, handle
99 is unknown, yet none of the three entry points returns `-ENOENT`. -/
theorem C3_unknown_handle_is_not_ENOENT :
    GetInstance_dev openedOnce DevicePtr.device = true ∧
    GetSession openedOnce 99 = none ∧
    (stdev_start_recognition sessionsSucceed DevicePtr.device 99 openedOnce).1 ≠ -ENOENT ∧
    (stdev_stop_recognition sessionsSucceed DevicePtr.device 99 openedOnce).1 ≠ -ENOENT ∧
    (stdev_unload_sound_model sessionsSucceed DevicePtr.device 99 openedOnce).1 ≠ -ENOENT := by
  decide

/-- C3 (amended): on a valid device, for a handle with no registered session,
`stdev_start_recognition`, `stdev_stop_recognition` and
`stdev_unload_sound_model` each return `-EINVAL` and leave the state as it was. -/
theorem C3_unknown_handle_returns_EINVAL (m : SessionMethods) (dev : DevicePtr) (h : Int)
    (s : HalState) (hv : GetInstance_dev s dev = true) (hg : GetSession s h = none) :
    stdev_start_recognition m dev h s = (-EINVAL, s) ∧
    stdev_stop_recognition m dev h s = (-EINVAL, s) ∧
    stdev_unload_sound_model m dev h s = (-EINVAL, s) := by
  simp [stdev_start_recognition, stdev_stop_recognition, stdev_unload_sound_model, hv, hg]

/-- Witness for the amended C3: handle 99 on a freshly opened device. -/
theorem C3_unknown_handle_returns_EINVAL_witness :
    stdev_start_recognition sessionsSucceed DevicePtr.device 99 openedOnce
        = (-EINVAL, openedOnce) ∧
    stdev_stop_recognition sessionsSucceed DevicePtr.device 99 openedOnce
        = (-EINVAL, openedOnce) ∧
    stdev_unload_sound_model sessionsSucceed DevicePtr.device 99 openedOnce
        = (-EINVAL, openedOnce) :=
  C3_unknown_handle_returns_EINVAL sessionsSucceed DevicePtr.device 99 openedOnce
    (by decide) (by decide)

/-! ### Version check -/

/-- Whenever the library is found, opens and exports both symbols,
`LoadAudioHal` returns 0, also when the major versions differ (the mismatch
branch jumps to the error exit without assigning `status`); in that case it
leaves `ahal_handle_` null. -/
theorem LoadAudioHal_major_mismatch (P : Platform) (e : AhalEnv) (s : HalState)
    (h cb : Nat) (v : Int)
    (hacc : e.access_path1 = true ∨ e.access_path2 = true)
    (hopen : e.dlopen_result = some h) (hcb : e.sym_audio_hw_call_back = some cb)
    (hver : e.sym_sthal_prop_api_version = some v)
    (hmis : P.MAJOR_VERSION v ≠ P.MAJOR_VERSION P.STHAL_PROP_API_CURRENT_VERSION) :
    (LoadAudioHal P e s).1 = 0 ∧ (LoadAudioHal P e s).2.ahal_handle_ = none := by
  unfold LoadAudioHal
  rcases hacc with ha | ha <;> simp [ha, hopen, hcb, hver, hmis]

/-- With such a library the first `stdev_open` (right interface name, count at
zero) returns 0, hands out the device and raises the count to 1. -/
theorem stdev_open_major_mismatch (P : Platform) (e : AhalEnv) (s : HalState)
    (h cb : Nat) (v : Int) (h0 : s.stdev_ref_cnt = 0)
    (hacc : e.access_path1 = true ∨ e.access_path2 = true)
    (hopen : e.dlopen_result = some h) (hcb : e.sym_audio_hw_call_back = some cb)
    (hver : e.sym_sthal_prop_api_version = some v)
    (hmis : P.MAJOR_VERSION v ≠ P.MAJOR_VERSION P.STHAL_PROP_API_CURRENT_VERSION) :
    (stdev_open P P.SOUND_TRIGGER_HARDWARE_INTERFACE e s).1 = 0 ∧
    (stdev_open P P.SOUND_TRIGGER_HARDWARE_INTERFACE e s).2.1 = some DevicePtr.device ∧
    (stdev_open P P.SOUND_TRIGGER_HARDWARE_INTERFACE e s).2.2.stdev_ref_cnt = 1 := by
  have hl := (LoadAudioHal_major_mismatch P e (GetInstance s) h cb v hacc hopen hcb hver hmis).1
  have hst : (stdev_open P P.SOUND_TRIGGER_HARDWARE_INTERFACE e s).1 = 0 := by
    simp [stdev_open, GetInstance_created, Init, GetInstance_ref_cnt, h0, hl, PlatformInit]
  obtain ⟨hd, _, _, hr⟩ := stdev_open_first P _ e s h0 hst
  exact ⟨hst, hd, hr⟩

/-- C4: with a library that is found, opens, exports `audio_hw_call_back` and
exports a version whose major component (2) differs from STHAL's (1),
`LoadAudioHal` returns 0, and the first `stdev_open` returns 0, hands out the
device and leaves the reference count at 1, with `ahal_handle_` null. -/
theorem C4_major_mismatch_reports_success :
    samplePlatform.MAJOR_VERSION 512
        ≠ samplePlatform.MAJOR_VERSION samplePlatform.STHAL_PROP_API_CURRENT_VERSION ∧
    (LoadAudioHal samplePlatform ahalMajorMismatch (GetInstance neverOpened)).1 = 0 ∧
    (stdev_open samplePlatform "sound_trigger_hw_if" ahalMajorMismatch neverOpened).1 = 0 ∧
    (stdev_open samplePlatform "sound_trigger_hw_if" ahalMajorMismatch neverOpened).2.1
        = some DevicePtr.device ∧
    (stdev_open samplePlatform "sound_trigger_hw_if" ahalMajorMismatch
        neverOpened).2.2.stdev_ref_cnt = 1 ∧
    (stdev_open samplePlatform "sound_trigger_hw_if" ahalMajorMismatch
        neverOpened).2.2.ahal_handle_ = none := by
  decide

/-! ### Properties query -/

/-- On a valid device with a non-null buffer, a reply with status 0 that is
null or too small makes `stdev_get_properties` return 0 with the buffer
untouched. -/
theorem stdev_get_properties_short_reply (P : Platform) (dev : DevicePtr) (buf : List Nat)
    (q : QalReply) (s : HalState) (hv : GetInstance_dev s dev = true)
    (hst : q.status = 0) (hbad : q.qstp = none ∨ q.size < P.sizeof_qal_st_properties) :
    stdev_get_properties P dev (some buf) q s = (0, some buf) := by
  have hd : dev = DevicePtr.device := by
    simp [GetInstance_dev] at hv; exact hv.2
  subst hd
  unfold stdev_get_properties
  simp [hv, hst, hbad]

/-- C5: on an opened device with a four-byte buffer, a reply of `qal_get_param`
with status 0 and a null structure, and one with status 0 and a structure of 3
bytes where 8 are expected, both make `stdev_get_properties` return 0 (success)
although nothing was copied: the buffer still holds its old bytes. -/
theorem C5_bad_reply_reports_success :
    stdev_get_properties samplePlatform DevicePtr.device (some [9, 9, 9, 9]) qalNullReply
        openedOnce = (0, some [9, 9, 9, 9]) ∧
    stdev_get_properties samplePlatform DevicePtr.device (some [9, 9, 9, 9]) qalShortReply
        openedOnce = (0, some [9, 9, 9, 9]) := by
  decide

/-! ### Reference counting -/

theorem open_calls_names (P : Platform) (os : List (String × AhalEnv)) :
    ∀ s : HalState, (∀ r ∈ (open_calls P os s).1, r.1 = 0) →
      ∀ o ∈ os, o.1 = P.SOUND_TRIGGER_HARDWARE_INTERFACE := by
  induction os with
  | nil => intro s _ o ho; cases ho
  | cons c cs ih =>
    intro s hok o ho
    simp only [open_calls, List.mem_cons, forall_eq_or_imp] at hok
    rcases List.mem_cons.mp ho with rfl | hmem
    · exact stdev_open_status_zero_name P _ _ s hok.1
    · exact ih _ hok.2 o hmem

/-- Opens issued while the count is non-zero: each returns 0 and the device,
and the state changes in the count only.  The count is tracked as `wrap32 c`
for an unreduced `c` that stays below `2^32`. -/
theorem open_calls_existing (P : Platform) (os : List (String × AhalEnv)) :
    ∀ (c : Int) (s : HalState), s.instance_created = true → s.stdev_ref_cnt = wrap32 c →
      0 < c → c + (os.length : Int) < 4294967296 →
      (∀ o ∈ os, o.1 = P.SOUND_TRIGGER_HARDWARE_INTERFACE) →
      open_calls P os s
        = (List.replicate os.length (0, some DevicePtr.device),
            { s with stdev_ref_cnt := wrap32 (c + (os.length : Int)) }) := by
  induction os with
  | nil =>
    intro c s _ hr _ _ _
    simp [open_calls, ← hr]
  | cons o os ih =>
    intro c s hc hr hpos hb hnames
    have hlen : ((o :: os).length : Int) = (os.length : Int) + 1 := by simp
    rw [hlen] at hb
    have hne : s.stdev_ref_cnt ≠ 0 := by
      rw [hr]; unfold wrap32; omega
    have hname : o.1 = P.SOUND_TRIGGER_HARDWARE_INTERFACE := hnames o (List.mem_cons_self _ _)
    have hstep := stdev_open_existing P o.2 s hc hne
    rw [← hname] at hstep
    have ih2 := ih (c + 1) { s with stdev_ref_cnt := wrap32 (s.stdev_ref_cnt + 1) } hc
      (by simp only [hr]; exact wrap32_wrap32_add c 1) (by omega) (by omega)
      (fun o2 ho2 => hnames o2 (List.mem_cons_of_mem _ ho2))
    simp only [open_calls, hstep, ih2, List.length_cons, List.replicate_succ]
    have e1 : c + 1 + (os.length : Int) = c + ((os.length + 1 : Nat) : Int) := by
      push_cast; ring
    rw [e1]

/-- Closes issued on the device while the count is at least the number of
closes: each returns 0 and lowers the count by one. -/
theorem close_calls_count (k : Nat) :
    ∀ s : HalState, s.instance_created = true → (k : Int) ≤ s.stdev_ref_cnt →
      s.stdev_ref_cnt < 2147483648 →
      close_calls DevicePtr.device k s
        = (List.replicate k 0, { s with stdev_ref_cnt := s.stdev_ref_cnt - (k : Int) }) := by
  induction k with
  | zero => intro s _ _ _; simp [close_calls]
  | succ k ih =>
    intro s hc hk hb
    have hk2 : (k : Int) + 1 ≤ s.stdev_ref_cnt := by exact_mod_cast hk
    have hw : wrap32 (s.stdev_ref_cnt - 1) = s.stdev_ref_cnt - 1 :=
      wrap32_of_range _ (by omega) (by omega)
    have hstep : stdev_close DevicePtr.device s
        = (0, { s with stdev_ref_cnt := s.stdev_ref_cnt - 1 }) := by
      simp [stdev_close, GetInstance_dev, hc, hw]
    have ih2 := ih { s with stdev_ref_cnt := s.stdev_ref_cnt - 1 } hc
      (by simp only; omega) (by simp only; omega)
    simp only [close_calls, hstep, ih2, List.replicate_succ]
    have e1 : s.stdev_ref_cnt - 1 - (k : Int) = s.stdev_ref_cnt - ((k + 1 : Nat) : Int) := by
      push_cast; ring
    rw [e1]

/-- The state after `o :: os` when every open reports success and the first one
finds the count at zero: the state the first open produced, with the count
advanced (32-bit) once per later open. -/
theorem open_calls_from_zero (P : Platform) (s0 : HalState) (o : String × AhalEnv)
    (os : List (String × AhalEnv)) (h0 : s0.stdev_ref_cnt = 0)
    (hb : 1 + (os.length : Int) < 4294967296)
    (hfirst : (stdev_open P o.1 o.2 s0).1 = 0)
    (hnames : ∀ o2 ∈ os, o2.1 = P.SOUND_TRIGGER_HARDWARE_INTERFACE) :
    open_calls P (o :: os) s0
      = ((0, some DevicePtr.device) :: List.replicate os.length (0, some DevicePtr.device),
          { (stdev_open P o.1 o.2 s0).2.2 with
              stdev_ref_cnt := wrap32 (1 + (os.length : Int)) }) := by
  obtain ⟨hd, hc, _, hr⟩ := stdev_open_first P o.1 o.2 s0 h0 hfirst
  have hrest := open_calls_existing P os 1 (stdev_open P o.1 o.2 s0).2.2 hc
    (by rw [hr]; decide) (by decide) hb hnames
  simp only [open_calls, hrest, hfirst, hd]

/-- C6 (as stated, refuted): `2^31` successful opens from the never-opened
state followed by no close do not leave the count at `2^31`: every open returns
0, and the 32-bit count ends at `-2^31`. -/
theorem C6_reference_count_wraps :
    (open_calls samplePlatform (sameOpens 2147483648) neverOpened).1.map Prod.fst
        = List.replicate 2147483648 0 ∧
    (close_calls DevicePtr.device 0
        (open_calls samplePlatform (sameOpens 2147483648) neverOpened).2).2.stdev_ref_cnt
        = -2147483648 ∧
    (close_calls DevicePtr.device 0
        (open_calls samplePlatform (sameOpens 2147483648) neverOpened).2).2.stdev_ref_cnt
        ≠ 2147483648 - 0 := by
  have hsplit : sameOpens 2147483648
      = ("sound_trigger_hw_if", ahalCompatible) :: sameOpens 2147483647 :=
    @List.replicate_succ _ ("sound_trigger_hw_if", ahalCompatible) 2147483647
  have hlen : (sameOpens 2147483647).length = 2147483647 := List.length_replicate _ _
  have hnames : ∀ o2 ∈ sameOpens 2147483647,
      o2.1 = samplePlatform.SOUND_TRIGGER_HARDWARE_INTERFACE := by
    intro o2 ho2
    rw [List.eq_of_mem_replicate ho2]
    rfl
  have key := open_calls_from_zero samplePlatform neverOpened
    ("sound_trigger_hw_if", ahalCompatible) (sameOpens 2147483647) (by decide)
    (by rw [hlen]; decide) (by decide) hnames
  rw [hlen] at key
  have hw : wrap32 (1 + ((2147483647 : Nat) : Int)) = -2147483648 := by decide
  rw [hsplit, key]
  refine ⟨?_, ?_, ?_⟩
  · rw [List.map_cons, List.map_replicate]
    exact (@List.replicate_succ _ (0 : Int) 2147483647).symm
  · show wrap32 (1 + ((2147483647 : Nat) : Int)) = -2147483648
    exact hw
  · show wrap32 (1 + ((2147483647 : Nat) : Int)) ≠ 2147483648 - 0
    rw [hw]; decide

/-- A `LoadAudioHal` that returns 0 has found the library, opened it and
resolved `audio_hw_call_back`; it stores that callback and the exported API
version (0 when the symbol is absent). -/
theorem LoadAudioHal_success (P : Platform) (e : AhalEnv) (s : HalState)
    (h : (LoadAudioHal P e s).1 = 0) :
    (e.access_path1 = true ∨ e.access_path2 = true) ∧
    e.dlopen_result ≠ none ∧
    e.sym_audio_hw_call_back ≠ none ∧
    (LoadAudioHal P e s).2.ahal_callback_ = e.sym_audio_hw_call_back ∧
    (LoadAudioHal P e s).2.sthal_prop_api_version_
      = e.sym_sthal_prop_api_version.getD 0 := by
  unfold LoadAudioHal at h ⊢
  by_cases hacc : (!e.access_path1 && !e.access_path2) = true
  · simp [hacc, ENOENT] at h
  · have hacc2 : e.access_path1 = true ∨ e.access_path2 = true := by
      cases h1 : e.access_path1 <;> cases h2 : e.access_path2 <;> simp_all
    cases hd : e.dlopen_result with
    | none => simp [hacc, hd, ENODEV] at h
    | some hh =>
      cases hcb : e.sym_audio_hw_call_back with
      | none => simp [hacc, hd, hcb, ENODEV] at h
      | some cb =>
        cases hver : e.sym_sthal_prop_api_version with
        | none => simp [hacc, hacc2]
        | some v =>
          by_cases hm : P.MAJOR_VERSION v = P.MAJOR_VERSION P.STHAL_PROP_API_CURRENT_VERSION
          · simp [hacc, hacc2, hm]
          · simp [hacc, hacc2, hm]

/-- An open that finds the count at zero and reports success has called
`LoadAudioHal`, which returned 0, then `PlatformInit`, and has then filled in
the device, `available_devices_`, `session_id_ = 1` and the count 1. -/
theorem stdev_open_first_state (P : Platform) (name : String) (e : AhalEnv) (s : HalState)
    (h0 : s.stdev_ref_cnt = 0) (hs : (stdev_open P name e s).1 = 0) :
    (LoadAudioHal P e (GetInstance s)).1 = 0 ∧
    (stdev_open P name e s).2.2
      = { (PlatformInit (LoadAudioHal P e (GetInstance s)).2).2 with
            device_methods_set := true
            available_devices_ := P.AUDIO_DEVICE_IN_BUILTIN_MIC
            session_id_ := 1
            stdev_ref_cnt := 1 } := by
  have hc := GetInstance_created s
  have hr := GetInstance_ref_cnt s
  have hf := LoadAudioHal_frame P e (GetInstance s)
  have hn := stdev_open_status_zero_name P name e s hs
  subst hn
  by_cases hl : (LoadAudioHal P e (GetInstance s)).1 = 0
  · refine ⟨hl, ?_⟩
    simp [stdev_open, hc, Init, hr, h0, hl, PlatformInit, hf.2.1, wrap32]
  · simp [stdev_open, hc, Init, hr, h0, hl] at hs

/-- C6 (amended): let `m` opens (`1 ≤ m < 2^31`) all report success, the first
finding the reference count at zero, followed by `k ≤ m` closes on the returned
device.  Then the count is `m - k`, every close returns 0, every open hands out
the same device pointer, and only the first open initialises.  The first open
has run `LoadAudioHal` on its loader answers (it returned 0) and `PlatformInit`
and set `session_id_ = 1`: the state it leaves is the `PlatformInit` of the
`LoadAudioHal` result with the device filled in, and it holds the callback and
API version of the first open's library.  The later opens and the closes change
nothing but the count, whatever the loader would have answered to them. -/
theorem C6_open_close_reference_count (P : Platform) (s0 : HalState)
    (o : String × AhalEnv) (os : List (String × AhalEnv)) (k : Nat)
    (h0 : s0.stdev_ref_cnt = 0)
    (hm : (o :: os).length < 2 ^ 31)
    (hok : ∀ r ∈ (open_calls P (o :: os) s0).1, r.1 = 0)
    (hk : k ≤ (o :: os).length) :
    (close_calls DevicePtr.device k (open_calls P (o :: os) s0).2).2.stdev_ref_cnt
        = ((o :: os).length : Int) - (k : Int) ∧
    (close_calls DevicePtr.device k (open_calls P (o :: os) s0).2).1 = List.replicate k 0 ∧
    (open_calls P (o :: os) s0).1.map Prod.snd
        = List.replicate (o :: os).length (some DevicePtr.device) ∧
    (open_calls P (o :: os) s0).2
        = { (stdev_open P o.1 o.2 s0).2.2 with stdev_ref_cnt := ((o :: os).length : Int) } ∧
    (close_calls DevicePtr.device k (open_calls P (o :: os) s0).2).2
        = { (stdev_open P o.1 o.2 s0).2.2 with
              stdev_ref_cnt := ((o :: os).length : Int) - (k : Int) } ∧
    (stdev_open P o.1 o.2 s0).2.2 = (Init P o.2 (GetInstance s0)).2.2 ∧
    (stdev_open P o.1 o.2 s0).2.2.session_id_ = 1 ∧
    (LoadAudioHal P o.2 (GetInstance s0)).1 = 0 ∧
    (stdev_open P o.1 o.2 s0).2.2
        = { (PlatformInit (LoadAudioHal P o.2 (GetInstance s0)).2).2 with
              device_methods_set := true
              available_devices_ := P.AUDIO_DEVICE_IN_BUILTIN_MIC
              session_id_ := 1
              stdev_ref_cnt := 1 } ∧
    (close_calls DevicePtr.device k (open_calls P (o :: os) s0).2).2
        = { (PlatformInit (LoadAudioHal P o.2 (GetInstance s0)).2).2 with
              device_methods_set := true
              available_devices_ := P.AUDIO_DEVICE_IN_BUILTIN_MIC
              session_id_ := 1
              stdev_ref_cnt := ((o :: os).length : Int) - (k : Int) } ∧
    o.2.sym_audio_hw_call_back ≠ none ∧
    (close_calls DevicePtr.device k (open_calls P (o :: os) s0).2).2.ahal_callback_
        = o.2.sym_audio_hw_call_back ∧
    (close_calls DevicePtr.device k (open_calls P (o :: os) s0).2).2.sthal_prop_api_version_
        = o.2.sym_sthal_prop_api_version.getD 0 ∧
    (close_calls DevicePtr.device k (open_calls P (o :: os) s0).2).2.conc_capture_supported_
        = false ∧
    (close_calls DevicePtr.device k (open_calls P (o :: os) s0).2).2.session_id_ = 1 := by
  have hfirst : (stdev_open P o.1 o.2 s0).1 = 0 := by
    have := hok ((stdev_open P o.1 o.2 s0).1, (stdev_open P o.1 o.2 s0).2.1)
      (by simp [open_calls])
    exact this
  have hnames := open_calls_names P (o :: os) s0 hok
  have hlen : ((o :: os).length : Int) = 1 + (os.length : Int) := by
    simp only [List.length_cons]; push_cast; ring
  have hlt : (os.length : Int) + 1 < 2147483648 := by
    have : ((o :: os).length : Int) < 2 ^ 31 := by exact_mod_cast hm
    rw [hlen] at this; norm_num at this; omega
  have key := open_calls_from_zero P s0 o os h0 (by omega) hfirst
    (fun o2 ho2 => hnames o2 (List.mem_cons_of_mem _ ho2))
  rw [wrap32_of_range _ (by omega) (by omega)] at key
  obtain ⟨_, hc, hid, _⟩ := stdev_open_first P o.1 o.2 s0 h0 hfirst
  obtain ⟨hload, hstate⟩ := stdev_open_first_state P o.1 o.2 s0 h0 hfirst
  obtain ⟨_, _, hcbne, hcb, hver⟩ := LoadAudioHal_success P o.2 (GetInstance s0) hload
  have hkz : (k : Int) ≤ 1 + (os.length : Int) := by
    rw [← hlen]; exact_mod_cast hk
  have hcl := close_calls_count k
    { (stdev_open P o.1 o.2 s0).2.2 with stdev_ref_cnt := 1 + (os.length : Int) }
    hc hkz (by simp only; omega)
  have hinit : (stdev_open P o.1 o.2 s0).2.2 = (Init P o.2 (GetInstance s0)).2.2 := by
    have hn := stdev_open_status_zero_name P o.1 o.2 s0 hfirst
    simp [stdev_open, hn, GetInstance_created]
  have hcb2 : (stdev_open P o.1 o.2 s0).2.2.ahal_callback_ = o.2.sym_audio_hw_call_back := by
    rw [hstate]; simpa [PlatformInit] using hcb
  have hver2 : (stdev_open P o.1 o.2 s0).2.2.sthal_prop_api_version_
      = o.2.sym_sthal_prop_api_version.getD 0 := by
    rw [hstate]; simpa [PlatformInit] using hver
  have hconc : (stdev_open P o.1 o.2 s0).2.2.conc_capture_supported_ = false := by
    rw [hstate]; simp [PlatformInit]
  rw [key, hcl, hlen]
  refine ⟨rfl, rfl, ?_, rfl, rfl, hinit, hid, hload, hstate, ?_, hcbne, hcb2, hver2, hconc,
    hid⟩
  · simp [List.replicate_succ]
  · rw [hstate]

/-- Witness for the amended C6: two opens and one close from the never-opened
state leave the count at 1.  The second open is answered "library missing" by
the loader and still returns 0, and the state keeps the callback the first
open resolved: the loader is consulted by the first open only. -/
theorem C6_open_close_reference_count_witness :
    (close_calls DevicePtr.device 1
        (open_calls samplePlatform
          [("sound_trigger_hw_if", ahalCompatible), ("sound_trigger_hw_if", ahalMissing)]
          neverOpened).2).2.stdev_ref_cnt = 1 ∧
    (LoadAudioHal samplePlatform ahalCompatible (GetInstance neverOpened)).1 = 0 ∧
    (close_calls DevicePtr.device 1
        (open_calls samplePlatform
          [("sound_trigger_hw_if", ahalCompatible), ("sound_trigger_hw_if", ahalMissing)]
          neverOpened).2).2.ahal_callback_ = some 2 ∧
    (stdev_open samplePlatform "sound_trigger_hw_if" ahalCompatible neverOpened).2.2.session_id_
        = 1 := by
  have h := C6_open_close_reference_count samplePlatform neverOpened
    ("sound_trigger_hw_if", ahalCompatible) [("sound_trigger_hw_if", ahalMissing)] 1
    (by decide) (by decide) (by decide) (by decide)
  exact ⟨h.1, h.2.2.2.2.2.2.2.1, h.2.2.2.2.2.2.2.2.2.2.2.1, h.2.2.2.2.2.2.1⟩

/-! ### Unloading -/

/-- In a registry with pairwise distinct handles, `GetSession` finds exactly
the registered session that carries the handle. -/
theorem GetSession_of_mem (s : HalState) (x : SoundTriggerSession)
    (hnd : (registered_handles s).Nodup) (hx : x ∈ s.session_list_) :
    GetSession s x.GetSoundModelHandle = some x := by
  unfold GetSession
  cases hf : s.session_list_.find?
      (fun y => decide (x.GetSoundModelHandle = y.GetSoundModelHandle)) with
  | none =>
    have := List.find?_eq_none.mp hf x hx
    simp at this
  | some y =>
    have hy : y ∈ s.session_list_ := List.mem_of_find?_eq_some hf
    have hp := List.find?_some hf
    have heq : x.GetSoundModelHandle = y.GetSoundModelHandle := by simpa using hp
    exact congrArg some (List.inj_on_of_nodup_map hnd hy hx heq.symm)

/-- C7: on a valid device whose registered sessions have pairwise distinct
handles, unloading the handle `h` of a registered session `x` whose
`UnloadSoundModel` returns 0 returns 0, removes exactly `x` from
`session_list_` (the other entries stay, in their order, and the size drops by
one), changes nothing else, and leaves `GetSession h` null; if `x` was the only
session the registry is empty afterwards. -/
theorem C7_unload_removes_exactly_the_session (m : SessionMethods) (dev : DevicePtr)
    (h : Int) (s : HalState) (x : SoundTriggerSession)
    (hv : GetInstance_dev s dev = true)
    (hnd : (registered_handles s).Nodup)
    (hx : x ∈ s.session_list_) (hh : x.GetSoundModelHandle = h)
    (hu : m.UnloadSoundModel x = 0) :
    (stdev_unload_sound_model m dev h s).1 = 0 ∧
    (stdev_unload_sound_model m dev h s).2
        = { s with session_list_ := s.session_list_.filter (fun y => y != x) } ∧
    (stdev_unload_sound_model m dev h s).2.session_list_.length + 1
        = s.session_list_.length ∧
    x ∉ (stdev_unload_sound_model m dev h s).2.session_list_ ∧
    GetSession (stdev_unload_sound_model m dev h s).2 h = none ∧
    (s.session_list_ = [x] → (stdev_unload_sound_model m dev h s).2.session_list_ = []) := by
  subst hh
  have hg := GetSession_of_mem s x hnd hx
  have hnd2 : s.session_list_.Nodup := List.Nodup.of_map _ hnd
  have hres : stdev_unload_sound_model m dev x.GetSoundModelHandle s
      = (0, { s with session_list_ := s.session_list_.erase x }) := by
    simp [stdev_unload_sound_model, hv, hg, hu, DeregisterSession, hx]
  have hfilter : s.session_list_.erase x = s.session_list_.filter (fun y => y != x) :=
    List.Nodup.erase_eq_filter hnd2 x
  have hnot : x ∉ s.session_list_.erase x := fun hmem => (List.Nodup.mem_erase_iff hnd2).mp hmem |>.1 rfl
  rw [hres]
  refine ⟨rfl, by rw [hfilter], ?_, hnot, ?_, ?_⟩
  · show (s.session_list_.erase x).length + 1 = s.session_list_.length
    rw [List.length_erase_of_mem hx]
    have : 0 < s.session_list_.length := List.length_pos_of_mem hx
    omega
  · show (s.session_list_.erase x).find?
        (fun y => decide (x.GetSoundModelHandle = y.GetSoundModelHandle)) = none
    rw [List.find?_eq_none]
    intro y hy hp
    have hy2 : y ∈ s.session_list_ := List.mem_of_mem_erase hy
    have heq : x.GetSoundModelHandle = y.GetSoundModelHandle := by simpa using hp
    have : y = x := List.inj_on_of_nodup_map hnd hy2 hx heq.symm
    exact hnot (this ▸ hy)
  · intro hone
    show s.session_list_.erase x = []
    rw [hone]; simp

/-- Witness for C7: unloading handle 2 from a registry holding handles 1, 2, 3
returns 0 and leaves the sessions with handles 1 and 3, in that order. -/
theorem C7_unload_removes_exactly_the_session_witness :
    (stdev_unload_sound_model sessionsSucceed DevicePtr.device 2 threeSessions).1 = 0 ∧
    (stdev_unload_sound_model sessionsSucceed DevicePtr.device 2 threeSessions).2
        = { threeSessions with
              session_list_ := threeSessions.session_list_.filter
                (fun y => y != (⟨11, 2, some 2⟩ : SoundTriggerSession)) } ∧
    GetSession (stdev_unload_sound_model sessionsSucceed DevicePtr.device 2 threeSessions).2 2
        = none := by
  have h := C7_unload_removes_exactly_the_session sessionsSucceed DevicePtr.device 2
    threeSessions ⟨11, 2, some 2⟩ (by decide) (by decide) (by decide) (by decide) (by decide)
  exact ⟨h.1, h.2.1, h.2.2.2.2.1⟩

/-- C8: whenever `stdev_unload_sound_model` returns a non-zero status (invalid
device, unknown handle, or a failing `UnloadSoundModel`), the whole state, and
with it `session_list_`, is exactly what it was before the call. -/
theorem C8_failed_unload_keeps_registry (m : SessionMethods) (dev : DevicePtr) (h : Int)
    (s : HalState) (hne : (stdev_unload_sound_model m dev h s).1 ≠ 0) :
    (stdev_unload_sound_model m dev h s).2 = s ∧
    (stdev_unload_sound_model m dev h s).2.session_list_ = s.session_list_ := by
  have hst : (stdev_unload_sound_model m dev h s).2 = s := by
    by_cases hv : GetInstance_dev s dev = true
    · cases hg : GetSession s h with
      | none => simp [stdev_unload_sound_model, hv, hg]
      | some x =>
        by_cases hu : m.UnloadSoundModel x = 0
        · by_cases hmem : x ∈ s.session_list_
          · simp [stdev_unload_sound_model, hv, hg, hu, DeregisterSession, hmem] at hne
          · simp [stdev_unload_sound_model, hv, hg, hu, DeregisterSession, hmem]
        · simp [stdev_unload_sound_model, hv, hg, hu]
    · simp [stdev_unload_sound_model, hv]
  exact ⟨hst, by rw [hst]⟩

/-- Witness for C8: a failing `UnloadSoundModel` on handle 2 returns `-5` and
leaves the three registered sessions in place. -/
theorem C8_failed_unload_keeps_registry_witness :
    (stdev_unload_sound_model sessionsFail DevicePtr.device 2 threeSessions).1 ≠ 0 ∧
    (stdev_unload_sound_model sessionsFail DevicePtr.device 2 threeSessions).2.session_list_
        = threeSessions.session_list_ :=
  ⟨by decide,
    (C8_failed_unload_keeps_registry sessionsFail DevicePtr.device 2 threeSessions
      (by decide)).2⟩

/-! ### Loading -/

/-- C9: on a valid device where no registered session has the next handle, a
session-level load that returns a non-zero status `e` makes
`stdev_load_sound_model` return `e`; the handle is written, the new session is
appended to `session_list_` (size plus one), `GetSession` on the written handle
returns it, and a later `stdev_unload_sound_model` on that handle whose
`UnloadSoundModel` succeeds returns 0 and restores the old registry. -/
theorem C9_failed_load_stays_registered (m : SessionMethods) (a : Nat) (dev : DevicePtr)
    (s : HalState) (e : Int)
    (hv : GetInstance_dev s dev = true)
    (hfree : GetSession s s.session_id_ = none)
    (he : m.LoadSoundModel ⟨a, s.session_id_, s.ahal_callback_⟩ = e) (hne : e ≠ 0) :
    (stdev_load_sound_model m a dev s).1 = e ∧
    (stdev_load_sound_model m a dev s).1 ≠ 0 ∧
    (stdev_load_sound_model m a dev s).2.1 = some s.session_id_ ∧
    (stdev_load_sound_model m a dev s).2.2.session_list_
        = s.session_list_ ++ [⟨a, s.session_id_, s.ahal_callback_⟩] ∧
    (stdev_load_sound_model m a dev s).2.2.session_list_.length
        = s.session_list_.length + 1 ∧
    GetSession (stdev_load_sound_model m a dev s).2.2 s.session_id_
        = some ⟨a, s.session_id_, s.ahal_callback_⟩ ∧
    (∀ m2 : SessionMethods, m2.UnloadSoundModel ⟨a, s.session_id_, s.ahal_callback_⟩ = 0 →
      stdev_unload_sound_model m2 dev s.session_id_ (stdev_load_sound_model m a dev s).2.2
        = (0, { (stdev_load_sound_model m a dev s).2.2 with
                  session_list_ := s.session_list_ })) := by
  have hres := stdev_load_sound_model_valid m a dev s hv
  have hnone : ∀ y ∈ s.session_list_, ¬ s.session_id_ = y.GetSoundModelHandle := by
    intro y hy
    have := List.find?_eq_none.mp hfree y hy
    simpa using this
  have hnotin : (⟨a, s.session_id_, s.ahal_callback_⟩ : SoundTriggerSession)
      ∉ s.session_list_ := fun hmem => hnone _ hmem rfl
  have hget : GetSession
      { s with session_id_ := wrap32 (s.session_id_ + 1)
               session_list_ := s.session_list_ ++ [⟨a, s.session_id_, s.ahal_callback_⟩] }
      s.session_id_ = some ⟨a, s.session_id_, s.ahal_callback_⟩ := by
    unfold GetSession at hfree ⊢
    simp only [List.find?_append, hfree]
    simp [SoundTriggerSession.GetSoundModelHandle]
  have hv2 : GetInstance_dev
      { s with session_id_ := wrap32 (s.session_id_ + 1)
               session_list_ := s.session_list_ ++ [⟨a, s.session_id_, s.ahal_callback_⟩] }
      dev = true := hv
  rw [hres]
  refine ⟨he, by rw [he]; exact hne, rfl, rfl, by simp, hget, ?_⟩
  intro m2 hu
  simp [stdev_unload_sound_model, hv2, hget, hu, DeregisterSession,
    List.erase_append_right _ hnotin]

/-- Witness for C9: on a registry holding handles 1, 2, 3 with the counter at
4, a load that fails at session level with `-5` returns `-5` and registers a
session with handle 4. -/
theorem C9_failed_load_stays_registered_witness :
    (stdev_load_sound_model sessionsFail 13 DevicePtr.device threeSessions).1 = -5 ∧
    (stdev_load_sound_model sessionsFail 13 DevicePtr.device threeSessions).2.1 = some 4 ∧
    GetSession (stdev_load_sound_model sessionsFail 13 DevicePtr.device threeSessions).2.2 4
        = some ⟨13, 4, some 2⟩ := by
  have h := C9_failed_load_stays_registered sessionsFail 13 DevicePtr.device threeSessions
    (-5) (by decide) (by decide) (by decide) (by decide)
  exact ⟨h.1, h.2.2.1, h.2.2.2.2.2.1⟩

/-! ### Concurrent loads -/

/-- Two steps of one thread, run back to back, are the sequential
`stdev_load_sound_model`. -/
theorem load_thread_two_steps (dev : DevicePtr) (inp : SessionMethods × Nat) (s : HalState) :
    load_thread_step dev inp (load_thread_step dev inp s LoadThread.entry).1
        (load_thread_step dev inp s LoadThread.entry).2
      = ((stdev_load_sound_model inp.1 inp.2 dev s).2.2,
          LoadThread.returned (stdev_load_sound_model inp.1 inp.2 dev s).1
            (stdev_load_sound_model inp.1 inp.2 dev s).2.1) := by
  by_cases hv : GetInstance_dev s dev = true
  · have hv2 : GetInstance_dev { s with session_id_ := wrap32 (s.session_id_ + 1) } dev
        = true := hv
    simp [load_thread_step, stdev_load_sound_model, hv, android_atomic_inc, RegisterSession]
  · simp [load_thread_step, stdev_load_sound_model, hv]

theorem filterMap_set_same {α β : Type} (f : α → Option β) :
    ∀ (l : List α) (t : Nat) (x old : α), l[t]? = some old → f x = f old →
      (l.set t x).filterMap f = l.filterMap f := by
  intro l
  induction l with
  | nil => intro t x old h _; simp at h
  | cons a l ih =>
    intro t x old h hf
    cases t with
    | zero =>
      simp only [List.getElem?_cons_zero, Option.some.injEq] at h
      subst h
      simp [List.filterMap_cons, hf]
    | succ t =>
      simp only [List.getElem?_cons_succ] at h
      simp [List.filterMap_cons, ih t x old h hf]

theorem filterMap_set_new {α β : Type} (f : α → Option β) :
    ∀ (l : List α) (t : Nat) (x old : α) (b : β), l[t]? = some old → f old = none →
      f x = some b → ((l.set t x).filterMap f).Perm (b :: l.filterMap f) := by
  intro l
  induction l with
  | nil => intro t x old b h _ _; simp at h
  | cons a l ih =>
    intro t x old b h hold hnew
    cases t with
    | zero =>
      simp only [List.getElem?_cons_zero, Option.some.injEq] at h
      subst h
      simp [List.filterMap_cons, hold, hnew]
    | succ t =>
      simp only [List.getElem?_cons_succ] at h
      have ih2 := ih t x old b h hold hnew
      simp only [List.set_cons_succ, List.filterMap_cons]
      cases f a with
      | none => exact ih2
      | some y => exact (List.Perm.cons y ih2).trans (List.Perm.swap b y _)

theorem filterMap_length_of_some {α β : Type} (f : α → Option β) :
    ∀ l : List α, (∀ x ∈ l, f x ≠ none) → (l.filterMap f).length = l.length := by
  intro l
  induction l with
  | nil => intro _; rfl
  | cons a l ih =>
    intro h
    have ha := h a (List.mem_cons_self _ _)
    have hl := ih (fun x hx => h x (List.mem_cons_of_mem _ hx))
    cases hfa : f a with
    | none => exact absurd hfa ha
    | some y => simp [List.filterMap_cons, hfa, hl]

theorem RaceInv_start (inputs : List (SessionMethods × Nat)) (dev : DevicePtr) (s : HalState)
    (hv : GetInstance_dev s dev = true) (hempty : s.session_list_ = [])
    (hid : wrap32 s.session_id_ = s.session_id_) :
    RaceInv s.session_id_ dev (race_start inputs s) := by
  have hw : written_handles (race_start inputs s) = [] := by
    simp [written_handles, race_start, LoadThread.written_handle]
  have hp : pushed_handles (race_start inputs s) = [] := by
    simp [pushed_handles, race_start, LoadThread.registered_handle]
  refine ⟨hv, ?_, ?_, ?_, ?_⟩
  · rw [hw]; simp [nth_handle, race_start, hid]
  · rw [hw]; simp
  · rw [hp]; simp [registered_handles, race_start, hempty]
  · intro th hth hret
    have : th = LoadThread.entry := List.eq_of_mem_replicate hth
    subst this
    simp [LoadThread.is_returned] at hret

theorem RaceInv_step (c0 : Int) (dev : DevicePtr) (inputs : List (SessionMethods × Nat))
    (c : LoadRace) (t : Nat) (h : RaceInv c0 dev c) :
    RaceInv c0 dev (race_step dev inputs c t) := by
  obtain ⟨hv, hcnt, hwr, hreg, hret⟩ := h
  unfold race_step
  cases hth : c.threads[t]? with
  | none => exact ⟨hv, hcnt, hwr, hreg, hret⟩
  | some th =>
    cases hin : inputs[t]? with
    | none => exact ⟨hv, hcnt, hwr, hreg, hret⟩
    | some inp =>
      cases th with
      | entry =>
        have hstep : load_thread_step dev inp c.dev_state LoadThread.entry
            = ({ c.dev_state with session_id_ := wrap32 (c.dev_state.session_id_ + 1) },
                LoadThread.assigned c.dev_state.session_id_) := by
          simp [load_thread_step, hv, android_atomic_inc]
        have hW : ((c.threads.set t (LoadThread.assigned c.dev_state.session_id_)).filterMap
            LoadThread.written_handle).Perm
            (c.dev_state.session_id_ :: c.threads.filterMap LoadThread.written_handle) :=
          filterMap_set_new _ _ t _ LoadThread.entry _ hth rfl rfl
        have hP : (c.threads.set t (LoadThread.assigned c.dev_state.session_id_)).filterMap
            LoadThread.registered_handle
            = c.threads.filterMap LoadThread.registered_handle :=
          filterMap_set_same _ _ t _ LoadThread.entry hth rfl
        have hlen : ((c.threads.set t (LoadThread.assigned c.dev_state.session_id_)).filterMap
            LoadThread.written_handle).length = (written_handles c).length + 1 := by
          rw [hW.length_eq]; rfl
        simp only [hstep]
        refine ⟨hv, ?_, ?_, ?_, ?_⟩
        · show wrap32 (c.dev_state.session_id_ + 1) = nth_handle c0
            ((c.threads.set t (LoadThread.assigned c.dev_state.session_id_)).filterMap
              LoadThread.written_handle).length
          rw [hlen, hcnt, nth_handle_succ]
        · show ((c.threads.set t (LoadThread.assigned c.dev_state.session_id_)).filterMap
              LoadThread.written_handle).Perm
            ((List.range ((c.threads.set t
              (LoadThread.assigned c.dev_state.session_id_)).filterMap
              LoadThread.written_handle).length).map (nth_handle c0))
          rw [hlen, List.range_succ, List.map_append]
          refine hW.trans ?_
          rw [hcnt]
          exact (List.Perm.cons _ hwr).trans (List.perm_append_singleton _ _).symm
        · show (registered_handles c.dev_state).Perm
            ((c.threads.set t (LoadThread.assigned c.dev_state.session_id_)).filterMap
              LoadThread.registered_handle)
          rw [hP]; exact hreg
        · intro th hmem hr
          rcases List.mem_or_eq_of_mem_set hmem with h1 | h1
          · exact hret th h1 hr
          · subst h1; simp [LoadThread.is_returned] at hr
      | assigned hd =>
        have hstep : load_thread_step dev inp c.dev_state (LoadThread.assigned hd)
            = ({ c.dev_state with
                  session_list_ := c.dev_state.session_list_
                    ++ [⟨inp.2, hd, c.dev_state.ahal_callback_⟩] },
                LoadThread.returned
                  (inp.1.LoadSoundModel ⟨inp.2, hd, c.dev_state.ahal_callback_⟩) (some hd)) := by
          simp [load_thread_step, RegisterSession]
        have hW : (c.threads.set t (LoadThread.returned
              (inp.1.LoadSoundModel ⟨inp.2, hd, c.dev_state.ahal_callback_⟩)
              (some hd))).filterMap LoadThread.written_handle
            = c.threads.filterMap LoadThread.written_handle :=
          filterMap_set_same _ _ t _ (LoadThread.assigned hd) hth rfl
        have hP : ((c.threads.set t (LoadThread.returned
              (inp.1.LoadSoundModel ⟨inp.2, hd, c.dev_state.ahal_callback_⟩)
              (some hd))).filterMap LoadThread.registered_handle).Perm
            (hd :: c.threads.filterMap LoadThread.registered_handle) :=
          filterMap_set_new _ _ t _ (LoadThread.assigned hd) _ hth rfl rfl
        simp only [hstep]
        refine ⟨hv, ?_, ?_, ?_, ?_⟩
        · show c.dev_state.session_id_ = nth_handle c0
            ((c.threads.set t (LoadThread.returned
              (inp.1.LoadSoundModel ⟨inp.2, hd, c.dev_state.ahal_callback_⟩)
              (some hd))).filterMap LoadThread.written_handle).length
          rw [hW]; exact hcnt
        · show ((c.threads.set t (LoadThread.returned
              (inp.1.LoadSoundModel ⟨inp.2, hd, c.dev_state.ahal_callback_⟩)
              (some hd))).filterMap LoadThread.written_handle).Perm
            ((List.range ((c.threads.set t (LoadThread.returned
              (inp.1.LoadSoundModel ⟨inp.2, hd, c.dev_state.ahal_callback_⟩)
              (some hd))).filterMap LoadThread.written_handle).length).map (nth_handle c0))
          rw [hW]; exact hwr
        · show (List.map SoundTriggerSession.GetSoundModelHandle
              (c.dev_state.session_list_ ++ [⟨inp.2, hd, c.dev_state.ahal_callback_⟩])).Perm
            ((c.threads.set t (LoadThread.returned
              (inp.1.LoadSoundModel ⟨inp.2, hd, c.dev_state.ahal_callback_⟩)
              (some hd))).filterMap LoadThread.registered_handle)
          rw [List.map_append]
          refine List.Perm.trans ?_ hP.symm
          exact (List.perm_append_singleton _ _).trans (List.Perm.cons _ hreg)
        · intro th hmem hr
          rcases List.mem_or_eq_of_mem_set hmem with h1 | h1
          · exact hret th h1 hr
          · subst h1; simp [LoadThread.written_handle]
      | returned st ho =>
        have hstep : load_thread_step dev inp c.dev_state (LoadThread.returned st ho)
            = (c.dev_state, LoadThread.returned st ho) := rfl
        have hW : (c.threads.set t (LoadThread.returned st ho)).filterMap
            LoadThread.written_handle = c.threads.filterMap LoadThread.written_handle :=
          filterMap_set_same _ _ t _ (LoadThread.returned st ho) hth rfl
        have hP : (c.threads.set t (LoadThread.returned st ho)).filterMap
            LoadThread.registered_handle = c.threads.filterMap LoadThread.registered_handle :=
          filterMap_set_same _ _ t _ (LoadThread.returned st ho) hth rfl
        simp only [hstep]
        refine ⟨hv, ?_, ?_, ?_, ?_⟩
        · show c.dev_state.session_id_ = nth_handle c0
            ((c.threads.set t (LoadThread.returned st ho)).filterMap
              LoadThread.written_handle).length
          rw [hW]; exact hcnt
        · show ((c.threads.set t (LoadThread.returned st ho)).filterMap
              LoadThread.written_handle).Perm
            ((List.range ((c.threads.set t (LoadThread.returned st ho)).filterMap
              LoadThread.written_handle).length).map (nth_handle c0))
          rw [hW]; exact hwr
        · show (registered_handles c.dev_state).Perm
            ((c.threads.set t (LoadThread.returned st ho)).filterMap
              LoadThread.registered_handle)
          rw [hP]; exact hreg
        · intro th hmem hr
          rcases List.mem_or_eq_of_mem_set hmem with h1 | h1
          · exact hret th h1 hr
          · subst h1
            exact hret _ (List.mem_iff_getElem?.mpr ⟨t, hth⟩) hr

theorem RaceInv_run (c0 : Int) (dev : DevicePtr) (inputs : List (SessionMethods × Nat))
    (sched : List Nat) :
    ∀ c : LoadRace, RaceInv c0 dev c → RaceInv c0 dev (race_run dev inputs sched c) := by
  induction sched with
  | nil => intro c h; exact h
  | cons t rest ih =>
    intro c h
    exact ih _ (RaceInv_step c0 dev inputs c t h)

theorem race_step_length (dev : DevicePtr) (inputs : List (SessionMethods × Nat))
    (c : LoadRace) (t : Nat) :
    (race_step dev inputs c t).threads.length = c.threads.length := by
  unfold race_step
  cases c.threads[t]? with
  | none => rfl
  | some th =>
    cases inputs[t]? with
    | none => rfl
    | some inp => simp

theorem race_run_length (dev : DevicePtr) (inputs : List (SessionMethods × Nat))
    (sched : List Nat) :
    ∀ c : LoadRace, (race_run dev inputs sched c).threads.length = c.threads.length := by
  induction sched with
  | nil => intro c; rfl
  | cons t rest ih =>
    intro c
    exact (ih _).trans (race_step_length dev inputs c t)

/-- Outcome of any interleaving that lets every thread return, started on a
valid device with an empty registry and the counter at a 32-bit value: every
thread has written a handle, the written handles are the first `N` values
handed out (in some order), and the registry holds one session per written
handle. -/
theorem race_outcome (inputs : List (SessionMethods × Nat)) (dev : DevicePtr) (s : HalState)
    (sched : List Nat)
    (hv : GetInstance_dev s dev = true) (hempty : s.session_list_ = [])
    (hid : wrap32 s.session_id_ = s.session_id_)
    (hdone : ∀ th ∈ (race_run dev inputs sched (race_start inputs s)).threads,
      th.is_returned = true) :
    (written_handles (race_run dev inputs sched (race_start inputs s))).length
        = inputs.length ∧
    (written_handles (race_run dev inputs sched (race_start inputs s))).Perm
        ((List.range inputs.length).map (nth_handle s.session_id_)) ∧
    (registered_handles (race_run dev inputs sched (race_start inputs s)).dev_state).Perm
        (written_handles (race_run dev inputs sched (race_start inputs s))) := by
  obtain ⟨_, _, hwr, hreg, hret⟩ :=
    RaceInv_run s.session_id_ dev inputs sched _ (RaceInv_start inputs dev s hv hempty hid)
  have hlenT : (race_run dev inputs sched (race_start inputs s)).threads.length
      = inputs.length := by
    rw [race_run_length]; simp [race_start]
  have hWlen : (written_handles (race_run dev inputs sched (race_start inputs s))).length
      = inputs.length := by
    rw [← hlenT]
    exact filterMap_length_of_some _ _ (fun th hth => hret th hth (hdone th hth))
  have hPW : pushed_handles (race_run dev inputs sched (race_start inputs s))
      = written_handles (race_run dev inputs sched (race_start inputs s)) := by
    apply List.filterMap_congr
    intro th hth
    have hr := hdone th hth
    cases th with
    | entry => simp [LoadThread.is_returned] at hr
    | assigned hd => simp [LoadThread.is_returned] at hr
    | returned st ho => rfl
  rw [hWlen] at hwr
  rw [hPW] at hreg
  exact ⟨hWlen, hwr, hreg⟩

theorem load_thread_step_progress (dev : DevicePtr) (inp : SessionMethods × Nat)
    (s : HalState) (th : LoadThread) (k : Nat) (hk : k ≤ 2) (h : k ≤ th.progress + 1) :
    k ≤ (load_thread_step dev inp s th).2.progress := by
  cases th with
  | entry =>
    have h1 : k ≤ 1 := by simpa [LoadThread.progress] using h
    by_cases hv : GetInstance_dev s dev = true
    · simp only [load_thread_step, hv, Bool.not_true, Bool.false_eq_true, if_false,
        LoadThread.progress]
      exact h1
    · simp only [load_thread_step, hv, Bool.not_eq_true, Bool.not_false, if_true,
        LoadThread.progress]
      exact hk
  | assigned hd =>
    simp only [load_thread_step, RegisterSession, ne_eq, not_true_eq_false, if_false,
      LoadThread.progress]
    exact hk
  | returned st ho =>
    simp only [load_thread_step, LoadThread.progress]
    exact hk

theorem thread_progress_step (dev : DevicePtr) (inputs : List (SessionMethods × Nat))
    (c : LoadRace) (t u : Nat) (hlen : c.threads.length = inputs.length)
    (hu : u < c.threads.length) (k : Nat) (hk : k ≤ 2)
    (h : k ≤ thread_progress c u + (if t = u then 1 else 0)) :
    k ≤ thread_progress (race_step dev inputs c t) u := by
  by_cases htu : t = u
  · subst htu
    rw [if_pos rfl] at h
    have h1 : c.threads[t]? = some (c.threads.get ⟨t, hu⟩) := List.getElem?_eq_getElem hu
    have h2 : inputs[t]? = some (inputs.get ⟨t, hlen ▸ hu⟩) :=
      List.getElem?_eq_getElem (hlen ▸ hu)
    have hp : thread_progress c t = (c.threads.get ⟨t, hu⟩).progress := by
      simp [thread_progress, h1]
    rw [hp] at h
    have := load_thread_step_progress dev (inputs.get ⟨t, hlen ▸ hu⟩) c.dev_state
      (c.threads.get ⟨t, hu⟩) k hk h
    simp only [race_step, h1, h2, thread_progress, List.getElem?_set_self hu]
    exact this
  · rw [if_neg htu, Nat.add_zero] at h
    have hsame : thread_progress (race_step dev inputs c t) u = thread_progress c u := by
      unfold race_step
      cases c.threads[t]? with
      | none => rfl
      | some th =>
        cases inputs[t]? with
        | none => rfl
        | some inp => simp [thread_progress, List.getElem?_set_ne htu]
    rw [hsame]; exact h

theorem thread_progress_run (dev : DevicePtr) (inputs : List (SessionMethods × Nat))
    (sched : List Nat) :
    ∀ (c : LoadRace) (u k : Nat), c.threads.length = inputs.length → u < c.threads.length →
      k ≤ 2 → k ≤ thread_progress c u + sched.count u →
      k ≤ thread_progress (race_run dev inputs sched c) u := by
  induction sched with
  | nil =>
    intro c u k _ _ _ h
    simpa [race_run] using h
  | cons t rest ih =>
    intro c u k hlen hu hk h
    have hlen2 : (race_step dev inputs c t).threads.length = inputs.length := by
      rw [race_step_length]; exact hlen
    have hu2 : u < (race_step dev inputs c t).threads.length := by
      rw [race_step_length]; exact hu
    have hcount : (t :: rest).count u = rest.count u + (if t = u then 1 else 0) := by
      rw [List.count_cons]
      by_cases htu : t = u <;> simp [htu]
    rw [hcount] at h
    have hstep := thread_progress_step dev inputs c t u hlen hu (k - rest.count u)
      (by omega) (by omega)
    exact ih (race_step dev inputs c t) u k hlen2 hu2 hk (by omega)

/-- The schedule `twoRounds` lets every thread return. -/
theorem twoRounds_completes (dev : DevicePtr) (inputs : List (SessionMethods × Nat))
    (s : HalState) :
    ∀ th ∈ (race_run dev inputs (twoRounds inputs.length) (race_start inputs s)).threads,
      th.is_returned = true := by
  intro th hth
  obtain ⟨u, hu⟩ := List.mem_iff_getElem?.mp hth
  have hlen0 : (race_start inputs s).threads.length = inputs.length := by simp [race_start]
  have hlenT : (race_run dev inputs (twoRounds inputs.length)
      (race_start inputs s)).threads.length = inputs.length := by
    rw [race_run_length]; exact hlen0
  have hult : u < inputs.length := by
    obtain ⟨hlt, _⟩ := List.getElem?_eq_some.mp hu
    rw [hlenT] at hlt; exact hlt
  have hcount : (twoRounds inputs.length).count u = 2 := by
    unfold twoRounds
    rw [List.count_append,
      List.count_eq_one_of_mem (List.nodup_range _) (List.mem_range.mpr hult)]
  have hp := thread_progress_run dev inputs (twoRounds inputs.length) (race_start inputs s)
    u 2 hlen0 (by rw [hlen0]; exact hult) (le_refl 2) (by rw [hcount]; omega)
  simp only [thread_progress, hu] at hp
  cases th with
  | entry => simp [LoadThread.progress] at hp
  | assigned hd => simp [LoadThread.progress] at hp
  | returned st ho => rfl

/-- Every schedule that names each thread at least twice lets every thread
take both its atomic steps and return. -/
theorem race_run_completes (dev : DevicePtr) (inputs : List (SessionMethods × Nat))
    (s : HalState) (sched : List Nat)
    (hsched : ∀ t < inputs.length, 2 ≤ sched.count t) :
    ∀ th ∈ (race_run dev inputs sched (race_start inputs s)).threads,
      th.is_returned = true := by
  intro th hth
  obtain ⟨u, hu⟩ := List.mem_iff_getElem?.mp hth
  have hlen0 : (race_start inputs s).threads.length = inputs.length := by simp [race_start]
  have hlenT : (race_run dev inputs sched (race_start inputs s)).threads.length
      = inputs.length := by
    rw [race_run_length]; exact hlen0
  have hult : u < inputs.length := by
    obtain ⟨hlt, _⟩ := List.getElem?_eq_some.mp hu
    rw [hlenT] at hlt; exact hlt
  have hcount := hsched u hult
  have hp := thread_progress_run dev inputs sched (race_start inputs s)
    u 2 hlen0 (by rw [hlen0]; exact hult) (le_refl 2) (by omega)
  simp only [thread_progress, hu] at hp
  cases th with
  | entry => simp [LoadThread.progress] at hp
  | assigned hd => simp [LoadThread.progress] at hp
  | returned st ho => rfl

/-- The bound `N ≤ 2^32` in the distinctness of concurrently assigned handles is
sharp in the model: a handle is a 32-bit `int`, so with `2^32 + 1` calls in
flight (more than a process can hold) the first and the last increment would
both hand out 1. -/
theorem handles_collide_beyond_32_bits :
    (race_run DevicePtr.device (raceInputs 4294967297) (twoRounds 4294967297)
        (race_start (raceInputs 4294967297) openedOnce)).threads.all LoadThread.is_returned
      = true ∧
    ¬ (written_handles (race_run DevicePtr.device (raceInputs 4294967297)
        (twoRounds 4294967297) (race_start (raceInputs 4294967297) openedOnce))).Nodup := by
  have hlen : (raceInputs 4294967297).length = 4294967297 := by
    unfold raceInputs
    rw [List.length_map, List.length_range]
  have hdone := twoRounds_completes DevicePtr.device (raceInputs 4294967297) openedOnce
  rw [hlen] at hdone
  have hout := race_outcome (raceInputs 4294967297) DevicePtr.device openedOnce
    (twoRounds 4294967297) (by decide) (by decide) (by decide) hdone
  rw [hlen] at hout
  refine ⟨List.all_eq_true.mpr hdone, ?_⟩
  intro hnd
  have hnd2 : ((List.range 4294967297).map (nth_handle openedOnce.session_id_)).Nodup :=
    (List.Perm.nodup_iff hout.2.1).mp hnd
  have h0 : (0 : Nat) ∈ List.range 4294967297 := List.mem_range.mpr (by decide)
  have h1 : (4294967296 : Nat) ∈ List.range 4294967297 := List.mem_range.mpr (by decide)
  have heq : nth_handle openedOnce.session_id_ 0 = nth_handle openedOnce.session_id_ 4294967296 := by
    decide
  have := List.inj_on_of_nodup_map hnd2 h0 h1 heq
  exact absurd this (by decide)

/-- C10: take `N` concurrent `stdev_load_sound_model` calls from `N` threads on
a valid device with an empty registry (the counter holding a 32-bit value) and
any interleaving of their atomic steps, the increment of `session_id_` and the
locked `push_back`, in which every thread gets to take both of its steps.
Then every call returns and has written a handle, so `N` handles are returned;
they are the `N` consecutive counter values in some order; `session_list_`
holds exactly `N` sessions, one per returned handle (no lost update); and the
`N` handles are pairwise distinct for every `N` up to `2^32`, the number of
values a handle can take and more calls than one process can have in flight. -/
theorem C10_concurrent_loads_distinct_handles (inputs : List (SessionMethods × Nat))
    (dev : DevicePtr) (s : HalState) (sched : List Nat)
    (hv : GetInstance_dev s dev = true) (hempty : s.session_list_ = [])
    (hid : wrap32 s.session_id_ = s.session_id_)
    (hsched : ∀ t < inputs.length, 2 ≤ sched.count t) :
    (race_run dev inputs sched (race_start inputs s)).threads.length = inputs.length ∧
    (∀ th ∈ (race_run dev inputs sched (race_start inputs s)).threads,
      th.is_returned = true ∧ th.written_handle ≠ none) ∧
    (written_handles (race_run dev inputs sched (race_start inputs s))).length
        = inputs.length ∧
    (written_handles (race_run dev inputs sched (race_start inputs s))).Perm
        ((List.range inputs.length).map (nth_handle s.session_id_)) ∧
    (race_run dev inputs sched (race_start inputs s)).dev_state.session_list_.length
        = inputs.length ∧
    (registered_handles (race_run dev inputs sched (race_start inputs s)).dev_state).Perm
        (written_handles (race_run dev inputs sched (race_start inputs s))) ∧
    (inputs.length ≤ 2 ^ 32 →
      (written_handles (race_run dev inputs sched (race_start inputs s))).Nodup) := by
  have hdone := race_run_completes dev inputs s sched hsched
  obtain ⟨hlen, hperm, hreg⟩ := race_outcome inputs dev s sched hv hempty hid hdone
  obtain ⟨_, _, _, _, hret⟩ :=
    RaceInv_run s.session_id_ dev inputs sched _ (RaceInv_start inputs dev s hv hempty hid)
  have hlenT : (race_run dev inputs sched (race_start inputs s)).threads.length
      = inputs.length := by
    rw [race_run_length]; simp [race_start]
  refine ⟨hlenT, fun th hth => ⟨hdone th hth, hret th hth (hdone th hth)⟩, hlen, hperm, ?_,
    hreg, ?_⟩
  · have := hreg.length_eq
    rw [hlen] at this
    simpa [registered_handles] using this
  · intro hN
    have hN2 : inputs.length ≤ 4294967296 := by
      have : (2 : Nat) ^ 32 = 4294967296 := by norm_num
      omega
    have hnd : ((List.range inputs.length).map (nth_handle s.session_id_)).Nodup := by
      apply List.Nodup.map_on _ (List.nodup_range _)
      intro i hi j hj hij
      have hi2 := List.mem_range.mp hi
      have hj2 := List.mem_range.mp hj
      exact nth_handle_injective s.session_id_ i j (by omega) (by omega) hij
    exact (List.Perm.nodup_iff hperm).mpr hnd

/-- Witness for C10: three threads interleaved as 2, 0, 2, 1, 0, 1 on a freshly
opened device all return; they return the handles 2, 3, 1 (thread order),
pairwise distinct, and leave three sessions registered. -/
theorem C10_concurrent_loads_distinct_handles_witness :
    (race_run DevicePtr.device (raceInputs 3) [2, 0, 2, 1, 0, 1]
        (race_start (raceInputs 3) openedOnce)).threads.all LoadThread.is_returned = true ∧
    written_handles (race_run DevicePtr.device (raceInputs 3) [2, 0, 2, 1, 0, 1]
        (race_start (raceInputs 3) openedOnce)) = [2, 3, 1] ∧
    (written_handles (race_run DevicePtr.device (raceInputs 3) [2, 0, 2, 1, 0, 1]
        (race_start (raceInputs 3) openedOnce))).Nodup ∧
    (race_run DevicePtr.device (raceInputs 3) [2, 0, 2, 1, 0, 1]
        (race_start (raceInputs 3) openedOnce)).dev_state.session_list_.length = 3 := by
  have h := C10_concurrent_loads_distinct_handles (raceInputs 3) DevicePtr.device openedOnce
    [2, 0, 2, 1, 0, 1] (by decide) (by decide) (by decide) (by decide)
  exact ⟨List.all_eq_true.mpr (fun th hth => (h.2.1 th hth).1), by decide,
    h.2.2.2.2.2.2 (by decide), h.2.2.2.2.1⟩

/-! ### Closing below zero -/

/-- A close on the device pointer while the count is 0 returns 0 and leaves the
count at -1: the decrement in `stdev_close` is not guarded. -/
theorem stdev_close_at_zero (s : HalState) (hc : s.instance_created = true)
    (h0 : s.stdev_ref_cnt = 0) :
    stdev_close DevicePtr.device s = (0, { s with stdev_ref_cnt := -1 }) := by
  simp [stdev_close, GetInstance_dev, hc, h0, wrap32]

/-- C11: the reference count does become negative.  After open, close, close
(the device pointer stays valid after the first close) both closes have
returned 0 and `stdev_ref_cnt` is -1.  A following `stdev_open` then finds a
non-zero count and takes the existing-instance branch although no earlier open
is outstanding: it returns 0 and the device even when the audio HAL library is
missing (the same request fails with `-ENOENT` on a never-opened process),
changes nothing but the count, and leaves the count at 0. -/
theorem C11_double_close_makes_count_negative :
    (runCalls samplePlatform doubleCloseTrace neverOpened).stdev_ref_cnt = -1 ∧
    (stdev_close DevicePtr.device openedOnce).1 = 0 ∧
    (stdev_close DevicePtr.device (stdev_close DevicePtr.device openedOnce).2).1 = 0 ∧
    stdev_open samplePlatform "sound_trigger_hw_if" ahalMissing
        (runCalls samplePlatform doubleCloseTrace neverOpened)
      = (0, some DevicePtr.device,
          { runCalls samplePlatform doubleCloseTrace neverOpened with stdev_ref_cnt := 0 }) ∧
    (stdev_open samplePlatform "sound_trigger_hw_if" ahalMissing neverOpened).1 = -ENOENT := by
  decide

end STHal
